import Mathlib

/-! AutoSaveManager (src/lib/autosave.js)

A shallow embedding of the autosave / restore manager: the preference store,
the save coordinator, the restore orchestrator `handleRestore`, the scheduler
triggers registered by `init` and the save handler of the settings dialog.

Conventions of the embedding

* `window.localStorage` is a string-keyed map together with its two failure
  modes (see `LocalStorage`).
* The injected callbacks (`saveGame`, `loadGame`, `renderAll`) are functions of
  the storage contents: they may rewrite the contents, and they either return
  or throw. They do not call back into the manager and do not change how the
  storage fails.
* `parseInt` yields the mathematical integer it reads; a JavaScript Number is
  that integer whenever it is below 2^53.
* Every call of an injected callback, every display of the restore prompt and
  every write call issued to the storage is appended to a chronological trace,
  so that "is invoked exactly once" and "performs no write" are statements
  about that trace.
* A JavaScript `try { .. } catch` is a `match` on a `Completion`.
-/

namespace AutoSave

/-! ## Constants (lines 8-17) -/

/-- Line 8: the key of the save blob, shared with the game. -/
def SAVE_KEY : String := "oi_coach_save"

/-- Line 9: the key of the restore preference. -/
def AUTOSAVE_PREFERENCE_KEY : String := "oi_coach_autosave_preference"

/-- Line 10: the key of the autosave timestamp. -/
def AUTOSAVE_TIMESTAMP_KEY : String := "oi_coach_autosave_timestamp"

/-- Lines 226 and 334: the key of the restart-confirmation toggle (a literal in the source). -/
def RESET_PROMPT_KEY : String := "oi_coach_reset_prompt"

/-- Line 14: `PREFERENCES.AUTO_RESTORE`. -/
def PREFERENCES.AUTO_RESTORE : String := "auto_restore"

/-- Line 15: `PREFERENCES.ASK_RESTORE`. -/
def PREFERENCES.ASK_RESTORE : String := "ask_restore"

/-- Line 16: `PREFERENCES.NO_RESTORE`. -/
def PREFERENCES.NO_RESTORE : String := "no_restore"

/-- The list `Object.values(PREFERENCES)` of line 59, in declaration order. -/
def PREFERENCES.values : List String :=
  [PREFERENCES.AUTO_RESTORE, PREFERENCES.ASK_RESTORE, PREFERENCES.NO_RESTORE]

/-! ## JavaScript values and completions -/

/-- The fragment of JavaScript values that reaches the manager: what a caller may pass to
`setPreference` and what `loadGame` may return. Numbers are the integers plus `NaN`. -/
inductive JsVal where
  | undefined
  | null
  | bool (b : Bool)
  | num (n : Int)
  | nan
  | str (s : String)
deriving DecidableEq, Repr

/-- JavaScript truthiness (`ToBoolean`), as used by `!restored` on line 411. -/
def JsVal.truthy : JsVal → Bool
  | .undefined => false
  | .null => false
  | .bool b => b
  | .num n => n != 0
  | .nan => false
  | .str s => s != ""

/-- How a JavaScript call ends: it returns a value or it throws. For the promise of an
async function: it is fulfilled with a value or it is rejected. -/
inductive Completion (α : Type) where
  | normal (value : α)
  | throw
deriving DecidableEq, Repr

/-! ## window.localStorage -/

/-- The contents of the storage: `getItem` gives `null` (here `none`) for a key without
value. -/
abbrev Items := String → Option String

/-- The storage object of the Web Storage interface with its two failure modes:
`denied`, reaching `window.localStorage` throws (storage blocked), which hits every
operation; `quotaExceeded key value`, `setItem(key, value)` throws for lack of space.
`getItem` and `removeItem` have no failure of their own. -/
structure LocalStorage where
  items : Items
  denied : Bool
  quotaExceeded : String → String → Bool

/-- The call `localStorage.getItem(key)`. -/
def LocalStorage.getItem (ls : LocalStorage) (key : String) : Completion (Option String) :=
  if ls.denied then .throw else .normal (ls.items key)

/-- The call `localStorage.setItem(key, value)`. -/
def LocalStorage.setItem (ls : LocalStorage) (key value : String) : Completion LocalStorage :=
  if ls.denied || ls.quotaExceeded key value then .throw
  else .normal { ls with items := fun k => if k = key then some value else ls.items k }

/-- The call `localStorage.removeItem(key)`. -/
def LocalStorage.removeItem (ls : LocalStorage) (key : String) : Completion LocalStorage :=
  if ls.denied then .throw
  else .normal { ls with items := fun k => if k = key then none else ls.items k }

/-- Truthiness of what `getItem` returned: `null` and the empty string are falsy. -/
def truthyItem : Option String → Bool
  | none => false
  | some s => s != ""

/-! ## Injected callbacks, the manager and the world it runs in -/

/-- What a call of an injected callback did: the storage contents when the call ended
and how it ended. -/
structure CallResult (α : Type) where
  items : Items
  completion : Completion α

/-- The callback `loadGame()`. -/
abbrev LoadFn := Items → CallResult JsVal

/-- The callback `saveGame(silent)`; its return value is never read. -/
abbrev SaveFn := Bool → Items → CallResult Unit

/-- The callback `renderAll()`; its return value is never read. -/
abbrev RenderFn := Items → CallResult Unit

/-- The observable events. -/
inductive Event where
  | loadGame
  | renderAll
  | saveGame (silent : Bool)
  | showRestorePrompt
  | setItem (key value : String)
  | removeItem (key : String)
deriving DecidableEq, Repr

/-- The fields of an `AutoSaveManager` instance (lines 20-26). A callback field is `none`
when it holds `null` or anything that is not a function; `game` says whether the game
reference is truthy. -/
structure AutoSaveManager where
  saveGame : Option SaveFn
  loadGame : Option LoadFn
  renderAll : Option RenderFn
  game : Bool
  hasShownPrompt : Bool

/-- The constructor (lines 20-26). -/
def AutoSaveManager.new : AutoSaveManager :=
  { saveGame := none, loadGame := none, renderAll := none, game := false,
    hasShownPrompt := false }

/-- The manager instance, the storage it talks to and the trace of events so far. -/
structure World where
  self : AutoSaveManager
  localStorage : LocalStorage
  trace : List Event

/-- Append an event to the trace. -/
def World.emit (w : World) (e : Event) : World :=
  { w with trace := w.trace ++ [e] }

/-- Replace the storage contents (after a callback ran). -/
def World.withItems (w : World) (items : Items) : World :=
  { w with localStorage := { w.localStorage with items := items } }

/-- A page that has just constructed its manager: no event yet. -/
def World.fresh (ls : LocalStorage) : World :=
  { self := AutoSaveManager.new, localStorage := ls, trace := [] }

/-- Lines 29-31: `setSaveCallback`. -/
def setSaveCallback (f : Option SaveFn) (w : World) : World :=
  { w with self := { w.self with saveGame := f } }

/-- Lines 33-35: `setLoadCallback`. -/
def setLoadCallback (f : Option LoadFn) (w : World) : World :=
  { w with self := { w.self with loadGame := f } }

/-- Lines 37-39: `setRenderCallback`. -/
def setRenderCallback (f : Option RenderFn) (w : World) : World :=
  { w with self := { w.self with renderAll := f } }

/-- Lines 41-43: `setGameReference`; the argument says whether the reference is truthy. -/
def setGameReference (gameRef : Bool) (w : World) : World :=
  { w with self := { w.self with game := gameRef } }

/-! ## Preference store (lines 46-68) -/

/-- Lines 46-54: `getPreference`. `pref || PREFERENCES.ASK_RESTORE` yields the default for
`null` and for the empty string, and `pref` itself otherwise. -/
def getPreference (w : World) : String :=
  match w.localStorage.getItem AUTOSAVE_PREFERENCE_KEY with
  | .normal pref =>
    match pref with
    | some s => if s != "" then s else PREFERENCES.ASK_RESTORE
    | none => PREFERENCES.ASK_RESTORE
  | .throw => PREFERENCES.ASK_RESTORE

/-- The test `Object.values(PREFERENCES).includes(preference)` of line 59: only a string can
be equal to one of the three strings. -/
def isPreferenceValue : JsVal → Option String
  | .str s => if s ∈ PREFERENCES.values then some s else none
  | _ => none

/-- Lines 57-68: `setPreference`. -/
def setPreference (preference : JsVal) (w : World) : Bool × World :=
  match isPreferenceValue preference with
  | some p =>
    let w1 := w.emit (.setItem AUTOSAVE_PREFERENCE_KEY p)
    match w.localStorage.setItem AUTOSAVE_PREFERENCE_KEY p with
    | .normal ls => (true, { w1 with localStorage := ls })
    | .throw => (false, w1)
  | none => (false, w)

/-! ## Save coordinator (lines 71-140) -/

/-- Lines 71-87: `autoSave`; `now` is the value of `Date.now()`. -/
def autoSave (now : Nat) (w : World) : Bool × World :=
  if !w.self.game then (false, w)
  else
    let w1 := w.emit (.setItem AUTOSAVE_TIMESTAMP_KEY (toString now))
    match w.localStorage.setItem AUTOSAVE_TIMESTAMP_KEY (toString now) with
    | .normal ls => (true, { w1 with localStorage := ls })
    | .throw => (false, w1)

/-- Lines 90-97: `hasAutoSave`. -/
def hasAutoSave (w : World) : Bool :=
  match w.localStorage.getItem SAVE_KEY with
  | .normal data =>
    match data with
    | some s => s != ""
    | none => false
  | .throw => false

/-- Lines 110-127: `restoreAutoSave`. -/
def restoreAutoSave (w : World) : JsVal × World :=
  match w.localStorage.getItem SAVE_KEY with
  | .normal data =>
    if !truthyItem data then (.bool false, w)
    else
      match w.self.loadGame with
      | some loadGame =>
        let r := loadGame w.localStorage.items
        let w1 := (w.emit .loadGame).withItems r.items
        match r.completion with
        | .normal v => (v, w1)
        | .throw => (.bool false, w1)
      | none => (.bool false, w)
  | .throw => (.bool false, w)

/-- Lines 130-140: `clearAutoSave`. -/
def clearAutoSave (w : World) : Bool × World :=
  let w1 := w.emit (.removeItem SAVE_KEY)
  match w.localStorage.removeItem SAVE_KEY with
  | .normal ls1 =>
    let w2 := ({ w1 with localStorage := ls1 } : World).emit (.removeItem AUTOSAVE_TIMESTAMP_KEY)
    match ls1.removeItem AUTOSAVE_TIMESTAMP_KEY with
    | .normal ls2 => (true, { w2 with localStorage := ls2 })
    | .throw => (false, w2)
  | .throw => (false, w1)

/-! ## Restore prompt and restore orchestrator (lines 143-217, 394-431) -/

/-- Lines 143-217: `showRestorePrompt` puts the dialog on the page. The promise it returns
is settled later, by the click of one of the two buttons: "keep" fulfils it with
`{disable: false}`, "disable" with `{disable: true}`. -/
def showRestorePrompt (w : World) : World :=
  w.emit .showRestorePrompt

/-- Lines 417-419: the guarded call of `renderAll`; a throw of the callback is not caught. -/
def renderIfAttached (w : World) : Completion Unit × World :=
  match w.self.renderAll with
  | some renderAll =>
    let r := renderAll w.localStorage.items
    (r.completion, (w.emit .renderAll).withItems r.items)
  | none => (.normal (), w)

/-- Where a call of the async function `handleRestore` stands when its synchronous part is
over: its promise is settled, or it is suspended at `await this.showRestorePrompt()`. -/
inductive Restore where
  | settled (result : Completion Bool) (w : World)
  | awaiting (w : World)

/-- The world a call of `handleRestore` is in when its synchronous part is over. -/
def Restore.world : Restore → World
  | .settled _ w => w
  | .awaiting w => w

/-- Lines 394-424: `handleRestore` up to the `await`. -/
def handleRestoreStart (w : World) : Restore :=
  let pref := getPreference w
  if pref = PREFERENCES.NO_RESTORE then .settled (.normal false) w
  else if !hasAutoSave w then .settled (.normal false) w
  else
    match restoreAutoSave w with
    | (restored, w1) =>
      if !restored.truthy then .settled (.normal false) w1
      else
        match renderIfAttached w1 with
        | (.throw, w2) => .settled .throw w2
        | (.normal _, w2) =>
          if pref = PREFERENCES.ASK_RESTORE ∧ w2.self.hasShownPrompt = false then
            .awaiting (showRestorePrompt { w2 with self := { w2.self with hasShownPrompt := true } })
          else .settled (.normal true) w2

/-- Lines 424-430: `handleRestore` from the `await` on; `prompt` is how the promise of the
prompt was settled (`normal disable` for `{disable}`). -/
def handleRestoreResume (prompt : Completion Bool) (w : World) : Completion Bool × World :=
  match prompt with
  | .normal disable =>
    if disable then (.normal true, (setPreference (.str PREFERENCES.NO_RESTORE) w).2)
    else (.normal true, w)
  | .throw => (.throw, w)

/-- Lines 394-431: a whole call of `handleRestore`, the prompt (if one is shown) being
settled with `prompt`. -/
def handleRestore (prompt : Completion Bool) (w : World) : Completion Bool × World :=
  match handleRestoreStart w with
  | .settled result w1 => (result, w1)
  | .awaiting w1 => handleRestoreResume prompt w1

/-! ## Scheduler triggers and settings dialog (lines 327-340, 365-391) -/

/-- Lines 367-377 and 380-388: the body shared by the `beforeunload` listener and the
30-second interval of `init`; `now` is the value of `Date.now()`. -/
def saveTrigger (now : Nat) (w : World) : Completion Unit × World :=
  let pref := getPreference w
  if pref != PREFERENCES.NO_RESTORE && w.self.game then
    match w.self.saveGame with
    | some saveGame =>
      let r := saveGame true w.localStorage.items
      let w1 := (w.emit (.saveGame true)).withItems r.items
      match r.completion with
      | .normal _ => (.normal (), (autoSave now w1).2)
      | .throw => (.throw, w1)
    | none => (.normal (), (autoSave now w).2)
  else (.normal (), w)

/-- Lines 327-340: the click handler of the "save" button of the settings dialog.
`selected` is the value of the checked radio button (`none` when no button is checked, and
reading `.value` of `null` throws), `resetPromptChecked` the state of the checkbox. -/
def settingsSave (selected : Option String) (resetPromptChecked : Bool) (w : World) :
    Completion Unit × World :=
  match selected with
  | some selectedPref =>
    let w1 := (setPreference (.str selectedPref) w).2
    let value := if resetPromptChecked then "true" else "false"
    let w2 := w1.emit (.setItem RESET_PROMPT_KEY value)
    match w1.localStorage.setItem RESET_PROMPT_KEY value with
    | .normal ls => (.normal (), { w2 with localStorage := ls })
    | .throw => (.normal (), w2)
  | none => (.throw, w)

/-! ## Sequences of operations on one manager instance -/

/-- One step in the life of a page: a call of a public method, a scheduler trigger, a click
in the settings dialog, the settling of the restore prompt, or other code of the page
rewriting the storage. -/
inductive Op where
  | setSaveCallback (f : Option SaveFn)
  | setLoadCallback (f : Option LoadFn)
  | setRenderCallback (f : Option RenderFn)
  | setGameReference (gameRef : Bool)
  | setPreference (preference : JsVal)
  | autoSave (now : Nat)
  | restoreAutoSave
  | clearAutoSave
  | saveTrigger (now : Nat)
  | settingsSave (selected : Option String) (resetPromptChecked : Bool)
  | handleRestore
  | settlePrompt (prompt : Completion Bool)
  | external (f : Items → Items)

/-- A page: the world and the number of `handleRestore` calls suspended at their `await`. -/
structure Page where
  world : World
  suspended : Nat

/-- A page that has just constructed its manager. -/
def Page.fresh (ls : LocalStorage) : Page :=
  { world := World.fresh ls, suspended := 0 }

/-- The effect of one operation. `handleRestore` runs the synchronous part of the call;
`settlePrompt` resumes a suspended call, if there is one. -/
def Page.step (p : Page) : Op → Page
  | .setSaveCallback f => { p with world := AutoSave.setSaveCallback f p.world }
  | .setLoadCallback f => { p with world := AutoSave.setLoadCallback f p.world }
  | .setRenderCallback f => { p with world := AutoSave.setRenderCallback f p.world }
  | .setGameReference g => { p with world := AutoSave.setGameReference g p.world }
  | .setPreference v => { p with world := (AutoSave.setPreference v p.world).2 }
  | .autoSave now => { p with world := (AutoSave.autoSave now p.world).2 }
  | .restoreAutoSave => { p with world := (AutoSave.restoreAutoSave p.world).2 }
  | .clearAutoSave => { p with world := (AutoSave.clearAutoSave p.world).2 }
  | .saveTrigger now => { p with world := (AutoSave.saveTrigger now p.world).2 }
  | .settingsSave sel chk => { p with world := (AutoSave.settingsSave sel chk p.world).2 }
  | .handleRestore =>
    match handleRestoreStart p.world with
    | .settled _ w => { p with world := w }
    | .awaiting w => { world := w, suspended := p.suspended + 1 }
  | .settlePrompt prompt =>
    if p.suspended = 0 then p
    else { world := (handleRestoreResume prompt p.world).2, suspended := p.suspended - 1 }
  | .external f => { p with world := p.world.withItems (f p.world.localStorage.items) }

/-- Run a sequence of operations. -/
def Page.run (p : Page) (ops : List Op) : Page :=
  ops.foldl Page.step p

/-- How often the restore prompt was shown. -/
def promptCount (w : World) : Nat :=
  w.trace.count .showRestorePrompt

/-- The storage contents left by the callbacks of a restore: `loadGame` ran on the contents
found, then `renderAll`, if attached, on what `loadGame` left. -/
def itemsAfterRestore (w : World) : Items :=
  match w.self.loadGame with
  | some load =>
    match w.self.renderAll with
    | some render => (render (load w.localStorage.items).items).items
    | none => (load w.localStorage.items).items
  | none => w.localStorage.items

/-! ## parseInt, the timestamp and the restart-confirmation toggle (lines 100-107, 224-228) -/

/-- The characters `parseInt` skips at the start of its argument: the white space and line
terminator code points of ECMAScript (`StrWhiteSpaceChar`). -/
def isStrWhiteSpaceChar (c : Char) : Bool :=
  c.toNat ∈ [0x09, 0x0A, 0x0B, 0x0C, 0x0D, 0x20, 0xA0, 0x1680, 0x2028, 0x2029, 0x202F, 0x205F,
      0x3000, 0xFEFF] ||
    (0x2000 ≤ c.toNat && c.toNat ≤ 0x200A)

/-- The value of a character as a digit: '0'-'9' are 0-9, letters of either case 10-35. -/
def digitOf (c : Char) : Option Nat :=
  if 48 ≤ c.toNat ∧ c.toNat ≤ 57 then some (c.toNat - 48)
  else if 97 ≤ c.toNat ∧ c.toNat ≤ 122 then some (c.toNat - 87)
  else if 65 ≤ c.toNat ∧ c.toNat ≤ 90 then some (c.toNat - 55)
  else none

/-- The values of the longest prefix of `cs` made of digits of the given radix. -/
def leadingDigits (radix : Nat) : List Char → List Nat
  | [] => []
  | c :: cs =>
    match digitOf c with
    | some d => if d < radix then d :: leadingDigits radix cs else []
    | none => []

/-- An optional sign at the start: whether it is a minus, and the rest. -/
def stripSign : List Char → Bool × List Char
  | [] => (false, [])
  | c :: cs => if c = '-' then (true, cs) else if c = '+' then (false, cs) else (false, c :: cs)

/-- The radix `parseInt` chooses when it is called without one, and the digits to read:
16 after a prefix "0x" or "0X", 10 otherwise. -/
def stripHexPrefix : List Char → Nat × List Char
  | c1 :: c2 :: cs =>
    if c1 = '0' ∧ (c2 = 'x' ∨ c2 = 'X') then (16, cs) else (10, c1 :: c2 :: cs)
  | cs => (10, cs)

/-- The number written by a list of digit values, most significant first. -/
def digitsValue (radix : Nat) (digits : List Nat) : Nat :=
  digits.foldl (fun acc d => acc * radix + d) 0

/-- The call `parseInt(s)` of line 103, with one argument. The result is the mathematical
integer read; JavaScript returns the Number nearest to it, which is that integer whenever
it is below 2^53, and it returns -0 for a negative zero, which is 0 here. -/
def parseInt (s : String) : JsVal :=
  let unsigned := stripSign (s.toList.dropWhile isStrWhiteSpaceChar)
  let body := stripHexPrefix unsigned.2
  let digits := leadingDigits body.1 body.2
  if digits.isEmpty then .nan
  else if unsigned.1 then .num (-(digitsValue body.1 digits : Int))
  else .num (digitsValue body.1 digits : Int)

/-- Lines 100-107: `getAutoSaveTimestamp`. -/
def getAutoSaveTimestamp (w : World) : JsVal :=
  match w.localStorage.getItem AUTOSAVE_TIMESTAMP_KEY with
  | .normal timestamp =>
    match timestamp with
    | some s => if s != "" then parseInt s else .null
    | none => .null
  | .throw => .null

/-- Lines 224-228: the restart-confirmation toggle as `showSettingsDialog` reads it into
`resetPromptPref`: true when the key is absent or the read throws, otherwise whether the
stored string is "true". -/
def resetPromptPref (w : World) : Bool :=
  match w.localStorage.getItem RESET_PROMPT_KEY with
  | .normal pref =>
    match pref with
    | none => true
    | some s => s == "true"
  | .throw => true

/-- Lines 323-325: the click handler of the "cancel" button of the settings dialog, which
only takes the dialog off the page. -/
def settingsCancel (w : World) : World :=
  w

/-! ## Sample inputs -/

/-- A storage that works and never runs out of space. -/
def LocalStorage.working (items : Items) : LocalStorage :=
  { items := items, denied := false, quotaExceeded := fun _ _ => false }

/-- Storage contents given by a list of key-value pairs. -/
def itemsOf (pairs : List (String × String)) : Items :=
  fun k => pairs.lookup k

/-- A `loadGame` that leaves the storage alone and returns `value`. -/
def loadReturning (value : JsVal) : LoadFn :=
  fun items => { items := items, completion := .normal value }

/-- A `loadGame` that throws. -/
def loadThrowing : LoadFn :=
  fun items => { items := items, completion := .throw }

/-- A `renderAll` that returns. -/
def renderReturning : RenderFn :=
  fun items => { items := items, completion := .normal () }

/-- A fresh page on a working storage with the given contents. -/
def sampleWorld (pairs : List (String × String)) : World :=
  World.fresh (LocalStorage.working (itemsOf pairs))

/-- A fresh page on a working storage with the given contents, a `loadGame` returning
`value` and a returning `renderAll` attached. -/
def wiredWorld (pairs : List (String × String)) (value : JsVal) : World :=
  setRenderCallback (some renderReturning)
    (setLoadCallback (some (loadReturning value)) (sampleWorld pairs))

/-- A fresh page on a working storage with the given contents and nothing but a `loadGame`
returning `value` attached. -/
def loadOnlyWorld (pairs : List (String × String)) (value : JsVal) : World :=
  setLoadCallback (some (loadReturning value)) (sampleWorld pairs)

/-- A fresh page whose storage is full (every `setItem` throws), with a `loadGame` returning
true and a returning `renderAll` attached. -/
def fullStorageWorld (pairs : List (String × String)) : World :=
  setRenderCallback (some renderReturning)
    (setLoadCallback (some (loadReturning (.bool true)))
      (World.fresh { items := itemsOf pairs, denied := false, quotaExceeded := fun _ _ => true }))

/-- A `renderAll` that throws. -/
def renderThrowing : RenderFn :=
  fun items => { items := items, completion := .throw }

/-- A fresh page on a working storage with the given contents, a `loadGame` returning true
and a `renderAll` that throws attached. -/
def throwingRenderWorld (pairs : List (String × String)) : World :=
  setRenderCallback (some renderThrowing)
    (setLoadCallback (some (loadReturning (.bool true))) (sampleWorld pairs))

/-- A fresh page whose storage is blocked (every read and every write throws), with a
`loadGame` that throws attached. -/
def blockedWorld (pairs : List (String × String)) : World :=
  setLoadCallback (some loadThrowing)
    (World.fresh { items := itemsOf pairs, denied := true, quotaExceeded := fun _ _ => true })

/-- A fresh page on a working storage whose timestamp key holds `value`. -/
def timestampWorld (value : String) : World :=
  sampleWorld [(SAVE_KEY, "blob"), (AUTOSAVE_TIMESTAMP_KEY, value)]

/-- A `saveGame` that writes `blob` under the save key and returns. -/
def saveWriting (blob : String) : SaveFn :=
  fun _ items =>
    { items := fun k => if k = SAVE_KEY then some blob else items k, completion := .normal () }

/-- A fresh page on a working storage with the given contents, the game reference attached
and a `saveGame` that writes "blob" attached. -/
def playingWorld (pairs : List (String × String)) : World :=
  setSaveCallback (some (saveWriting "blob")) (setGameReference true (sampleWorld pairs))

/-- A page with a save blob stored and the game reference attached, no callback attached
and no call suspended. -/
def blobPage : Page :=
  { world := setGameReference true (sampleWorld [(SAVE_KEY, "blob")]), suspended := 0 }

/-- A `saveGame` that throws. -/
def saveThrowing : SaveFn :=
  fun _ items => { items := items, completion := .throw }

/-- A fresh page on a working storage with the given contents, the game reference attached
and a `saveGame` that throws attached. -/
def throwingSaveWorld (pairs : List (String × String)) : World :=
  setSaveCallback (some saveThrowing) (setGameReference true (sampleWorld pairs))

/-! ## Preference store: theorems -/

theorem mem_values_iff (s : String) :
    s ∈ PREFERENCES.values ↔
      s = PREFERENCES.AUTO_RESTORE ∨ s = PREFERENCES.ASK_RESTORE ∨ s = PREFERENCES.NO_RESTORE := by
  simp [PREFERENCES.values]

theorem ne_empty_of_mem_values {s : String} (h : s ∈ PREFERENCES.values) : s ≠ "" := by
  rw [mem_values_iff] at h
  rcases h with h | h | h <;> subst h <;> decide

/-- A stale or foreign string under the preference key comes back as it is. -/
theorem getPreference_stored (w : World) (s : String) (hs : s ≠ "")
    (h : w.localStorage.getItem AUTOSAVE_PREFERENCE_KEY = .normal (some s)) :
    getPreference w = s := by
  simp [getPreference, h, hs]

theorem setItem_normal_iff (ls : LocalStorage) (key value : String) :
    (∃ ls1, ls.setItem key value = .normal ls1) ↔
      ls.denied = false ∧ ls.quotaExceeded key value = false := by
  unfold LocalStorage.setItem
  cases hd : ls.denied <;> cases hq : ls.quotaExceeded key value <;> simp

theorem setItem_throw_iff (ls : LocalStorage) (key value : String) :
    ls.setItem key value = .throw ↔
      (ls.denied = true ∨ ls.quotaExceeded key value = true) := by
  unfold LocalStorage.setItem
  cases hd : ls.denied <;> cases hq : ls.quotaExceeded key value <;> simp

theorem isPreferenceValue_str (p : String) (hp : p ∈ PREFERENCES.values) :
    isPreferenceValue (.str p) = some p := by
  simp [isPreferenceValue, hp]

theorem isPreferenceValue_eq_some (v : JsVal) (p : String) :
    isPreferenceValue v = some p ↔ v = .str p ∧ p ∈ PREFERENCES.values := by
  cases v <;> simp [isPreferenceValue]
  rename_i s
  constructor
  · rintro ⟨h1, h2⟩
    subst h2
    exact ⟨rfl, h1⟩
  · rintro ⟨h1, h2⟩
    subst h1
    exact ⟨h2, rfl⟩

theorem isPreferenceValue_eq_none (v : JsVal) :
    isPreferenceValue v = none ↔ ∀ p ∈ PREFERENCES.values, v ≠ .str p := by
  cases v <;> simp [isPreferenceValue]
  rename_i s
  constructor
  · intro h p hp hsp
    subst hsp
    exact h hp
  · intro h hs
    exact h s hs rfl

/-- The preference read after a write of `p` that did not throw. -/
theorem getPreference_after_write (w : World) (p : String) (hp : p ∈ PREFERENCES.values)
    (hd : w.localStorage.denied = false)
    (hq : w.localStorage.quotaExceeded AUTOSAVE_PREFERENCE_KEY p = false) :
    setPreference (.str p) w =
      (true, { w.emit (.setItem AUTOSAVE_PREFERENCE_KEY p) with
                localStorage := { w.localStorage with
                  items := fun k => if k = AUTOSAVE_PREFERENCE_KEY then some p
                                    else w.localStorage.items k } }) := by
  simp [setPreference, isPreferenceValue_str p hp, LocalStorage.setItem, hd, hq]

/-- C1 (counterexample): with the string "always" stored under the preference key, which is
none of the three enum literals, `getPreference` returns "always", not 'ask_restore', and
its result is no member of the enum. -/
theorem getPreference_nonmember_returned :
    (sampleWorld [(AUTOSAVE_PREFERENCE_KEY, "always")]).localStorage.getItem
        AUTOSAVE_PREFERENCE_KEY = .normal (some "always") ∧
      "always" ∉ PREFERENCES.values ∧
      getPreference (sampleWorld [(AUTOSAVE_PREFERENCE_KEY, "always")]) = "always" ∧
      getPreference (sampleWorld [(AUTOSAVE_PREFERENCE_KEY, "always")]) ≠
        PREFERENCES.ASK_RESTORE ∧
      getPreference (sampleWorld [(AUTOSAVE_PREFERENCE_KEY, "always")]) ∉
        PREFERENCES.values := by
  decide

/-- C1 (amended): `getPreference` returns 'ask_restore' when the preference key is missing,
when the storage read throws and when the stored string is empty; every other stored string
is returned as it is, so the result is a member of the enum exactly when the stored string
is one. -/
theorem getPreference_default_or_stored (w : World) :
    (w.localStorage.getItem AUTOSAVE_PREFERENCE_KEY = .normal none →
        getPreference w = PREFERENCES.ASK_RESTORE) ∧
      (w.localStorage.getItem AUTOSAVE_PREFERENCE_KEY = .throw →
        getPreference w = PREFERENCES.ASK_RESTORE) ∧
      (w.localStorage.getItem AUTOSAVE_PREFERENCE_KEY = .normal (some "") →
        getPreference w = PREFERENCES.ASK_RESTORE) ∧
      (∀ s, s ≠ "" → w.localStorage.getItem AUTOSAVE_PREFERENCE_KEY = .normal (some s) →
        getPreference w = s ∧ (getPreference w ∈ PREFERENCES.values ↔ s ∈ PREFERENCES.values)) := by
  refine ⟨?_, ?_, ?_, ?_⟩
  · intro h
    simp [getPreference, h]
  · intro h
    simp [getPreference, h]
  · intro h
    simp [getPreference, h]
  · intro s hs h
    have hget := getPreference_stored w s hs h
    exact ⟨hget, by rw [hget]⟩

/-- C2: when the write of an enum member `p` under the preference key succeeds,
`setPreference(p)` returns true and a subsequent `getPreference()` returns exactly `p`. -/
theorem setPreference_getPreference_roundtrip (w : World) (p : String)
    (hp : p ∈ PREFERENCES.values)
    (hwrite : ∃ ls, w.localStorage.setItem AUTOSAVE_PREFERENCE_KEY p = .normal ls) :
    (setPreference (.str p) w).1 = true ∧ getPreference (setPreference (.str p) w).2 = p := by
  obtain ⟨hd, hq⟩ := (setItem_normal_iff _ _ _).mp hwrite
  rw [getPreference_after_write w p hp hd hq]
  refine ⟨rfl, ?_⟩
  have hne := ne_empty_of_mem_values hp
  simp [getPreference, LocalStorage.getItem, World.emit, hd, hne]

/-- C2 (witness): on a working storage holding 'no_restore', writing 'auto_restore' reads
back as 'auto_restore'. -/
theorem setPreference_getPreference_roundtrip_witness :
    getPreference (setPreference (.str PREFERENCES.AUTO_RESTORE)
      (sampleWorld [(AUTOSAVE_PREFERENCE_KEY, PREFERENCES.NO_RESTORE)])).2 =
        PREFERENCES.AUTO_RESTORE :=
  (setPreference_getPreference_roundtrip
    (sampleWorld [(AUTOSAVE_PREFERENCE_KEY, PREFERENCES.NO_RESTORE)])
    PREFERENCES.AUTO_RESTORE (by decide) ⟨_, rfl⟩).2

/-- C3: `setPreference(v)` returns true if and only if `v` is a member of the enum and the
storage write succeeds; for a `v` that is no member it returns false and leaves the world as
it was (no write call in the trace, the storage unchanged), so `getPreference()` returns
what it returned before; when the write throws it returns false, the throw being caught. -/
theorem setPreference_true_iff (w : World) (v : JsVal) :
    ((setPreference v w).1 = true ↔
        ∃ p, v = .str p ∧ p ∈ PREFERENCES.values ∧
          ∃ ls, w.localStorage.setItem AUTOSAVE_PREFERENCE_KEY p = .normal ls) ∧
      ((∀ p ∈ PREFERENCES.values, v ≠ .str p) →
        setPreference v w = (false, w) ∧
          getPreference (setPreference v w).2 = getPreference w) ∧
      (∀ p, v = .str p → p ∈ PREFERENCES.values →
        w.localStorage.setItem AUTOSAVE_PREFERENCE_KEY p = .throw →
        (setPreference v w).1 = false ∧
          (setPreference v w).2.localStorage = w.localStorage) := by
  refine ⟨?_, ?_, ?_⟩
  · constructor
    · intro h
      cases hv : isPreferenceValue v with
      | none => simp [setPreference, hv] at h
      | some p =>
        obtain ⟨hvp, hp⟩ := (isPreferenceValue_eq_some v p).mp hv
        refine ⟨p, hvp, hp, ?_⟩
        cases hset : w.localStorage.setItem AUTOSAVE_PREFERENCE_KEY p with
        | normal ls => exact ⟨ls, rfl⟩
        | throw => simp [setPreference, hv, hset] at h
    · rintro ⟨p, hvp, hp, ls, hset⟩
      subst hvp
      simp [setPreference, isPreferenceValue_str p hp, hset]
  · intro h
    have hv := (isPreferenceValue_eq_none v).mpr h
    simp [setPreference, hv]
  · intro p hvp hp hset
    subst hvp
    simp [setPreference, isPreferenceValue_str p hp, hset, World.emit]

/-! ## Restore orchestrator: theorems -/

/-- The NO_RESTORE short-circuit of lines 398-401. -/
theorem handleRestoreStart_of_no_restore (w : World)
    (hpref : getPreference w = PREFERENCES.NO_RESTORE) :
    handleRestoreStart w = .settled (.normal false) w := by
  simp [handleRestoreStart, hpref]

/-- C4: with NO_RESTORE stored under the preference key, and so in particular when save data
exists as well, `handleRestore()` returns false and leaves the world as it was: the trace
gets no event, so neither `loadGame` nor `renderAll` is invoked and no prompt is shown. -/
theorem handleRestore_no_restore (w : World) (prompt : Completion Bool)
    (hpref : w.localStorage.items AUTOSAVE_PREFERENCE_KEY = some PREFERENCES.NO_RESTORE) :
    handleRestore prompt w = (.normal false, w) ∧
      (handleRestore prompt w).2.trace.count .loadGame = w.trace.count .loadGame ∧
      (handleRestore prompt w).2.trace.count .renderAll = w.trace.count .renderAll ∧
      promptCount (handleRestore prompt w).2 = promptCount w := by
  have h : handleRestore prompt w = (.normal false, w) := by
    cases hd : w.localStorage.denied with
    | false =>
      have hget : getPreference w = PREFERENCES.NO_RESTORE := by
        simp [getPreference, LocalStorage.getItem, hd, hpref]
        decide
      simp [handleRestore, handleRestoreStart_of_no_restore w hget]
    | true =>
      have hget : getPreference w = PREFERENCES.ASK_RESTORE := by
        simp [getPreference, LocalStorage.getItem, hd]
      have hsave : hasAutoSave w = false := by
        simp [hasAutoSave, LocalStorage.getItem, hd]
      have hne : PREFERENCES.ASK_RESTORE ≠ PREFERENCES.NO_RESTORE := by decide
      simp [handleRestore, handleRestoreStart, hget, hsave, hne]
  simp [h]

/-- C4 (witness): 'no_restore' stored, a save blob present, callbacks attached. -/
theorem handleRestore_no_restore_witness :
    hasAutoSave (wiredWorld [(AUTOSAVE_PREFERENCE_KEY, PREFERENCES.NO_RESTORE),
        (SAVE_KEY, "blob")] (.bool true)) = true ∧
      handleRestore (.normal false)
        (wiredWorld [(AUTOSAVE_PREFERENCE_KEY, PREFERENCES.NO_RESTORE), (SAVE_KEY, "blob")]
          (.bool true)) =
      (.normal false,
        wiredWorld [(AUTOSAVE_PREFERENCE_KEY, PREFERENCES.NO_RESTORE), (SAVE_KEY, "blob")]
          (.bool true)) :=
  ⟨by decide, (handleRestore_no_restore _ _ (by decide)).1⟩

theorem hasAutoSave_iff (w : World) :
    hasAutoSave w = true ↔
      w.localStorage.denied = false ∧ ∃ s, w.localStorage.items SAVE_KEY = some s ∧ s ≠ "" := by
  unfold hasAutoSave LocalStorage.getItem
  cases hd : w.localStorage.denied <;> cases hi : w.localStorage.items SAVE_KEY <;> simp

/-- What `restoreAutoSave` does when a save blob is there and `loadGame` is attached. -/
theorem restoreAutoSave_of_load (w : World) (load : LoadFn) (hsave : hasAutoSave w = true)
    (hload : w.self.loadGame = some load) :
    restoreAutoSave w =
      (match (load w.localStorage.items).completion with
        | .normal v => v
        | .throw => .bool false,
       (w.emit .loadGame).withItems (load w.localStorage.items).items) := by
  obtain ⟨hd, s, hs, hne⟩ := (hasAutoSave_iff w).mp hsave
  unfold restoreAutoSave LocalStorage.getItem
  simp only [hd, hs, hload, truthyItem]
  cases hc : (load w.localStorage.items).completion <;> simp [hne]

/-- Counting an event in a trace that got one more event. -/
theorem count_emit (w : World) (e e1 : Event) :
    (w.emit e1).trace.count e = w.trace.count e + if e1 = e then 1 else 0 := by
  simp [World.emit, List.count_append, List.count_singleton]

theorem trace_withItems (w : World) (items : Items) : (w.withItems items).trace = w.trace := rfl

theorem self_withItems (w : World) (items : Items) : (w.withItems items).self = w.self := rfl

theorem self_emit (w : World) (e : Event) : (w.emit e).self = w.self := rfl

/-- The synchronous part of `handleRestore` when the restore succeeds and the prompt is due:
the flag is set and the prompt is shown on the world the render step left. -/
theorem handleRestore_prompted (w : World) (load : LoadFn) (v : JsVal)
    (hflag : w.self.hasShownPrompt = false)
    (hpref : getPreference w = PREFERENCES.ASK_RESTORE) (hsave : hasAutoSave w = true)
    (hload : w.self.loadGame = some load)
    (hv : (load w.localStorage.items).completion = .normal v) (htruthy : v.truthy = true)
    (w2 : World)
    (hrender : renderIfAttached ((w.emit .loadGame).withItems (load w.localStorage.items).items)
      = (.normal (), w2)) :
    handleRestoreStart w =
      .awaiting (showRestorePrompt { w2 with self := { w2.self with hasShownPrompt := true } }) := by
  have hflag2 : w2.self.hasShownPrompt = false := by
    unfold renderIfAttached at hrender
    simp only [self_withItems, self_emit] at hrender
    cases hr : w.self.renderAll with
    | none =>
      simp only [hr] at hrender
      injection hrender with _ h2
      rw [← h2]
      exact hflag
    | some render =>
      simp only [hr] at hrender
      injection hrender with _ h2
      rw [← h2]
      exact hflag
  have hne : PREFERENCES.ASK_RESTORE ≠ PREFERENCES.NO_RESTORE := by decide
  unfold handleRestoreStart
  simp only [hpref, hne, if_false, hsave, restoreAutoSave_of_load w load hsave hload, hv, htruthy,
    hrender, hflag2]
  simp

theorem renderIfAttached_of_render (w : World) (render : RenderFn)
    (hrender : w.self.renderAll = some render)
    (hret : (render w.localStorage.items).completion = .normal ()) :
    renderIfAttached w =
      (.normal (), (w.emit .renderAll).withItems (render w.localStorage.items).items) := by
  simp [renderIfAttached, hrender, hret]

/-- C5 (counterexample): a fresh manager with 'ask_restore' stored, a save blob and a load
callback that returns true, but no render callback attached: `handleRestore()` returns true
and shows the prompt once, and `renderAll` is not invoked at all. -/
theorem handleRestore_without_render :
    getPreference (loadOnlyWorld [(AUTOSAVE_PREFERENCE_KEY, PREFERENCES.ASK_RESTORE),
        (SAVE_KEY, "blob")] (.bool true)) = PREFERENCES.ASK_RESTORE ∧
      hasAutoSave (loadOnlyWorld [(AUTOSAVE_PREFERENCE_KEY, PREFERENCES.ASK_RESTORE),
        (SAVE_KEY, "blob")] (.bool true)) = true ∧
      (handleRestore (.normal false) (loadOnlyWorld [(AUTOSAVE_PREFERENCE_KEY,
        PREFERENCES.ASK_RESTORE), (SAVE_KEY, "blob")] (.bool true))).1 = .normal true ∧
      (handleRestore (.normal false) (loadOnlyWorld [(AUTOSAVE_PREFERENCE_KEY,
        PREFERENCES.ASK_RESTORE), (SAVE_KEY, "blob")] (.bool true))).2.trace
        = [.loadGame, .showRestorePrompt] ∧
      (handleRestore (.normal false) (loadOnlyWorld [(AUTOSAVE_PREFERENCE_KEY,
        PREFERENCES.ASK_RESTORE), (SAVE_KEY, "blob")] (.bool true))).2.trace.count .renderAll
        = 0 := by
  decide

/-- A call of `setPreference` adds nothing but `setItem` events to the trace. -/
theorem setPreference_count (v : JsVal) (w : World) (e : Event)
    (he : ∀ key value, e ≠ .setItem key value) :
    (setPreference v w).2.trace.count e = w.trace.count e := by
  unfold setPreference
  cases hv : isPreferenceValue v with
  | none => rfl
  | some p =>
    have hne : Event.setItem AUTOSAVE_PREFERENCE_KEY p ≠ e := fun h => he _ _ h.symm
    cases hset : w.localStorage.setItem AUTOSAVE_PREFERENCE_KEY p <;>
      simp [hset, count_emit, hne]

/-- A call of `setPreference` leaves the fields of the manager alone. -/
theorem setPreference_self (v : JsVal) (w : World) : (setPreference v w).2.self = w.self := by
  unfold setPreference
  cases hv : isPreferenceValue v with
  | none => rfl
  | some p =>
    cases hset : w.localStorage.setItem AUTOSAVE_PREFERENCE_KEY p <;>
      simp [hset, self_emit]

/-- C5 (amended): on a manager that has not shown the prompt yet, with preference
ASK_RESTORE, save data, a load callback that returns a truthy value and a render callback
that is attached and returns: `handleRestore()` returns true, invokes `loadGame` once and
`renderAll` exactly once and shows the restore prompt exactly once, whatever the user
answers in the prompt. -/
theorem handleRestore_ask_restore (w : World) (load : LoadFn) (render : RenderFn) (v : JsVal)
    (disable : Bool)
    (hflag : w.self.hasShownPrompt = false)
    (hpref : getPreference w = PREFERENCES.ASK_RESTORE) (hsave : hasAutoSave w = true)
    (hload : w.self.loadGame = some load)
    (hv : (load w.localStorage.items).completion = .normal v) (htruthy : v.truthy = true)
    (hrender : w.self.renderAll = some render)
    (hret : (render (load w.localStorage.items).items).completion = .normal ()) :
    (handleRestore (.normal disable) w).1 = .normal true ∧
      (handleRestore (.normal disable) w).2.trace.count .loadGame
        = w.trace.count .loadGame + 1 ∧
      (handleRestore (.normal disable) w).2.trace.count .renderAll
        = w.trace.count .renderAll + 1 ∧
      promptCount (handleRestore (.normal disable) w).2 = promptCount w + 1 := by
  have hr := renderIfAttached_of_render
    ((w.emit .loadGame).withItems (load w.localStorage.items).items) render hrender hret
  have hstart := handleRestore_prompted w load v hflag hpref hsave hload hv htruthy _ hr
  unfold handleRestore
  rw [hstart]
  cases disable with
  | false =>
    simp [handleRestoreResume, showRestorePrompt, promptCount, count_emit, trace_withItems]
  | true =>
    simp only [handleRestoreResume, if_true, promptCount]
    rw [setPreference_count _ _ _ (by simp), setPreference_count _ _ _ (by simp),
      setPreference_count _ _ _ (by simp)]
    simp [showRestorePrompt, count_emit, trace_withItems]

/-- C5 (witness): a fresh page with 'ask_restore' stored, a save blob, and returning load
and render callbacks; the user chooses "disable". -/
theorem handleRestore_ask_restore_witness :
    (handleRestore (.normal true) (wiredWorld [(AUTOSAVE_PREFERENCE_KEY,
        PREFERENCES.ASK_RESTORE), (SAVE_KEY, "blob")] (.bool true))).1 = .normal true ∧
      (handleRestore (.normal true) (wiredWorld [(AUTOSAVE_PREFERENCE_KEY,
        PREFERENCES.ASK_RESTORE), (SAVE_KEY, "blob")] (.bool true))).2.trace.count .renderAll
        = 1 ∧
      promptCount (handleRestore (.normal true) (wiredWorld [(AUTOSAVE_PREFERENCE_KEY,
        PREFERENCES.ASK_RESTORE), (SAVE_KEY, "blob")] (.bool true))).2 = 1 := by
  have h := handleRestore_ask_restore
    (wiredWorld [(AUTOSAVE_PREFERENCE_KEY, PREFERENCES.ASK_RESTORE), (SAVE_KEY, "blob")]
      (.bool true))
    (loadReturning (.bool true)) renderReturning (.bool true) true rfl (by decide) (by decide)
    rfl rfl rfl rfl rfl
  exact ⟨h.1, h.2.2.1, h.2.2.2⟩

/-! ## Frame lemmas: what an operation leaves alone -/

/-- A call of `restoreAutoSave` adds nothing but `loadGame` events to the trace. -/
theorem restoreAutoSave_count (w : World) (e : Event) (he : e ≠ .loadGame) :
    (restoreAutoSave w).2.trace.count e = w.trace.count e := by
  have hne : Event.loadGame ≠ e := fun h => he h.symm
  unfold restoreAutoSave
  cases hget : w.localStorage.getItem SAVE_KEY with
  | throw => rfl
  | normal data =>
    cases hdata : truthyItem data with
    | false => simp [hdata]
    | true =>
      cases hload : w.self.loadGame with
      | none => simp [hdata]
      | some load =>
        cases hc : (load w.localStorage.items).completion <;>
          simp [hc, hdata, count_emit, trace_withItems, hne]

/-- A call of `restoreAutoSave` leaves the fields of the manager alone. -/
theorem restoreAutoSave_self (w : World) : (restoreAutoSave w).2.self = w.self := by
  unfold restoreAutoSave
  cases hget : w.localStorage.getItem SAVE_KEY with
  | throw => rfl
  | normal data =>
    cases hdata : truthyItem data with
    | false => simp [hdata]
    | true =>
      cases hload : w.self.loadGame with
      | none => simp [hdata]
      | some load =>
        cases hc : (load w.localStorage.items).completion <;>
          simp [hc, hdata, self_emit, self_withItems]

/-- The guarded call of `renderAll` adds nothing but `renderAll` events to the trace. -/
theorem renderIfAttached_count (w : World) (e : Event) (he : e ≠ .renderAll) :
    (renderIfAttached w).2.trace.count e = w.trace.count e := by
  have hne : Event.renderAll ≠ e := fun h => he h.symm
  unfold renderIfAttached
  cases hr : w.self.renderAll with
  | none => rfl
  | some render => simp [count_emit, trace_withItems, hne]

/-- The guarded call of `renderAll` leaves the fields of the manager alone. -/
theorem renderIfAttached_self (w : World) : (renderIfAttached w).2.self = w.self := by
  unfold renderIfAttached
  cases hr : w.self.renderAll with
  | none => rfl
  | some render => simp [self_emit, self_withItems]

/-- The guarded call of `renderAll` returns when the callback is missing or returns. -/
theorem renderIfAttached_normal (w : World)
    (hret : ∀ render, w.self.renderAll = some render →
      (render w.localStorage.items).completion = .normal ()) :
    (renderIfAttached w).1 = .normal () := by
  unfold renderIfAttached
  cases hr : w.self.renderAll with
  | none => rfl
  | some render => simpa using hret render hr

/-- A call of `autoSave` adds nothing but `setItem` events to the trace. -/
theorem autoSave_count (now : Nat) (w : World) (e : Event)
    (he : ∀ key value, e ≠ .setItem key value) :
    (autoSave now w).2.trace.count e = w.trace.count e := by
  have hne : Event.setItem AUTOSAVE_TIMESTAMP_KEY (toString now) ≠ e := fun h => he _ _ h.symm
  unfold autoSave
  cases hg : w.self.game with
  | false => simp [hg]
  | true =>
    cases hset : w.localStorage.setItem AUTOSAVE_TIMESTAMP_KEY (toString now) <;>
      simp [hg, hset, count_emit, hne]

/-- A call of `autoSave` leaves the fields of the manager alone. -/
theorem autoSave_self (now : Nat) (w : World) : (autoSave now w).2.self = w.self := by
  unfold autoSave
  cases hg : w.self.game with
  | false => simp [hg]
  | true =>
    cases hset : w.localStorage.setItem AUTOSAVE_TIMESTAMP_KEY (toString now) <;>
      simp [hg, hset, self_emit]

/-- A call of `clearAutoSave` adds nothing but `removeItem` events to the trace. -/
theorem clearAutoSave_count (w : World) (e : Event) (he : ∀ key, e ≠ .removeItem key) :
    (clearAutoSave w).2.trace.count e = w.trace.count e := by
  have hne1 : Event.removeItem SAVE_KEY ≠ e := fun h => he _ h.symm
  have hne2 : Event.removeItem AUTOSAVE_TIMESTAMP_KEY ≠ e := fun h => he _ h.symm
  unfold clearAutoSave
  cases h1 : w.localStorage.removeItem SAVE_KEY with
  | throw => simp [count_emit, hne1]
  | normal ls1 =>
    cases h2 : ls1.removeItem AUTOSAVE_TIMESTAMP_KEY <;>
      simp [h2, World.emit, List.count_append, List.count_cons, hne1, hne2]

/-- A call of `clearAutoSave` leaves the fields of the manager alone. -/
theorem clearAutoSave_self (w : World) : (clearAutoSave w).2.self = w.self := by
  unfold clearAutoSave
  cases h1 : w.localStorage.removeItem SAVE_KEY with
  | throw => simp [self_emit]
  | normal ls1 =>
    cases h2 : ls1.removeItem AUTOSAVE_TIMESTAMP_KEY <;> simp [h2, World.emit]

/-! ## Restore orchestrator: the remaining paths -/

/-- The synchronous part of `handleRestore` when the restore succeeds and no prompt is due. -/
theorem handleRestoreStart_restored (w : World) (load : LoadFn) (v : JsVal)
    (hpref : getPreference w ≠ PREFERENCES.NO_RESTORE) (hsave : hasAutoSave w = true)
    (hload : w.self.loadGame = some load)
    (hv : (load w.localStorage.items).completion = .normal v) (htruthy : v.truthy = true)
    (hret : (renderIfAttached
      ((w.emit .loadGame).withItems (load w.localStorage.items).items)).1 = .normal ())
    (hquiet : ¬ (getPreference w = PREFERENCES.ASK_RESTORE ∧ w.self.hasShownPrompt = false)) :
    handleRestoreStart w = .settled (.normal true)
      (renderIfAttached ((w.emit .loadGame).withItems (load w.localStorage.items).items)).2 := by
  have hr : renderIfAttached ((w.emit .loadGame).withItems (load w.localStorage.items).items)
      = (.normal (), (renderIfAttached
          ((w.emit .loadGame).withItems (load w.localStorage.items).items)).2) :=
    Prod.ext hret rfl
  have hflag : (renderIfAttached
      ((w.emit .loadGame).withItems (load w.localStorage.items).items)).2.self.hasShownPrompt
        = w.self.hasShownPrompt := by
    rw [renderIfAttached_self, self_withItems, self_emit]
  unfold handleRestoreStart
  simp only [hpref, if_false, hsave, restoreAutoSave_of_load w load hsave hload, hv, htruthy]
  rw [hr]
  simp only [hflag]
  simp [hquiet]

/-- C7 (counterexample): 'auto_restore' stored, a save blob present, and a load callback
that returns false: `handleRestore()` returns false, not true. -/
theorem handleRestore_auto_restore_load_fails :
    getPreference (wiredWorld [(AUTOSAVE_PREFERENCE_KEY, PREFERENCES.AUTO_RESTORE),
        (SAVE_KEY, "blob")] (.bool false)) = PREFERENCES.AUTO_RESTORE ∧
      hasAutoSave (wiredWorld [(AUTOSAVE_PREFERENCE_KEY, PREFERENCES.AUTO_RESTORE),
        (SAVE_KEY, "blob")] (.bool false)) = true ∧
      (handleRestore (.normal false) (wiredWorld [(AUTOSAVE_PREFERENCE_KEY,
        PREFERENCES.AUTO_RESTORE), (SAVE_KEY, "blob")] (.bool false))).1 = .normal false := by
  decide

/-- C7 (amended): with the stored preference AUTO_RESTORE, save data present and a load
callback that is attached and returns a truthy value (the render callback, if attached,
returning), `handleRestore()` returns true and shows no restore prompt, whatever the value
of the `hasShownPrompt` flag, and leaves the flag unchanged. -/
theorem handleRestore_auto_restore (w : World) (prompt : Completion Bool) (load : LoadFn)
    (v : JsVal)
    (hpref : getPreference w = PREFERENCES.AUTO_RESTORE) (hsave : hasAutoSave w = true)
    (hload : w.self.loadGame = some load)
    (hv : (load w.localStorage.items).completion = .normal v) (htruthy : v.truthy = true)
    (hret : ∀ render, w.self.renderAll = some render →
      (render (load w.localStorage.items).items).completion = .normal ()) :
    (handleRestore prompt w).1 = .normal true ∧
      promptCount (handleRestore prompt w).2 = promptCount w ∧
      (handleRestore prompt w).2.self.hasShownPrompt = w.self.hasShownPrompt := by
  have hne : getPreference w ≠ PREFERENCES.NO_RESTORE := by
    rw [hpref]
    decide
  have hquiet : ¬ (getPreference w = PREFERENCES.ASK_RESTORE ∧ w.self.hasShownPrompt = false) := by
    rw [hpref]
    intro h
    exact absurd h.1 (by decide)
  have hnormal := renderIfAttached_normal
    ((w.emit .loadGame).withItems (load w.localStorage.items).items) hret
  have hstart := handleRestoreStart_restored w load v hne hsave hload hv htruthy hnormal hquiet
  unfold handleRestore
  rw [hstart]
  refine ⟨rfl, ?_, ?_⟩
  · simp only [promptCount]
    rw [renderIfAttached_count _ _ (by simp), trace_withItems, count_emit]
    simp
  · simp only [renderIfAttached_self, self_withItems, self_emit]

/-- C7 (witness): 'auto_restore' stored, a save blob present, returning load and render
callbacks. -/
theorem handleRestore_auto_restore_witness :
    (handleRestore (.normal true) (wiredWorld [(AUTOSAVE_PREFERENCE_KEY,
        PREFERENCES.AUTO_RESTORE), (SAVE_KEY, "blob")] (.bool true))).1 = .normal true ∧
      promptCount (handleRestore (.normal true) (wiredWorld [(AUTOSAVE_PREFERENCE_KEY,
        PREFERENCES.AUTO_RESTORE), (SAVE_KEY, "blob")] (.bool true))).2 =
        promptCount (wiredWorld [(AUTOSAVE_PREFERENCE_KEY, PREFERENCES.AUTO_RESTORE),
          (SAVE_KEY, "blob")] (.bool true)) := by
  have h := handleRestore_auto_restore
    (wiredWorld [(AUTOSAVE_PREFERENCE_KEY, PREFERENCES.AUTO_RESTORE), (SAVE_KEY, "blob")]
      (.bool true))
    (.normal true) (loadReturning (.bool true)) (.bool true) (by decide) (by decide) rfl rfl rfl
    (fun render hr => by
      cases hr
      rfl)
  exact ⟨h.1, h.2.1⟩

/-- C9: when no save blob is present (the save key is absent or holds the empty string),
`hasAutoSave()` is false and `handleRestore()` returns false whatever is stored as
preference, leaving the world as it was: no `loadGame`, no `renderAll`, no prompt. -/
theorem handleRestore_without_save (w : World) (prompt : Completion Bool)
    (hblob : w.localStorage.items SAVE_KEY = none ∨ w.localStorage.items SAVE_KEY = some "") :
    hasAutoSave w = false ∧ handleRestore prompt w = (.normal false, w) := by
  have hsave : hasAutoSave w = false := by
    unfold hasAutoSave LocalStorage.getItem
    cases hd : w.localStorage.denied with
    | true => simp
    | false => rcases hblob with h | h <;> simp [h]
  refine ⟨hsave, ?_⟩
  unfold handleRestore handleRestoreStart
  by_cases hp : getPreference w = PREFERENCES.NO_RESTORE <;> simp [hp, hsave]

/-- C9 (witness): 'auto_restore' stored and no save key at all. -/
theorem handleRestore_without_save_witness :
    hasAutoSave (wiredWorld [(AUTOSAVE_PREFERENCE_KEY, PREFERENCES.AUTO_RESTORE)]
        (.bool true)) = false ∧
      handleRestore (.normal false)
        (wiredWorld [(AUTOSAVE_PREFERENCE_KEY, PREFERENCES.AUTO_RESTORE)] (.bool true)) =
      (.normal false,
        wiredWorld [(AUTOSAVE_PREFERENCE_KEY, PREFERENCES.AUTO_RESTORE)] (.bool true)) :=
  handleRestore_without_save _ _ (Or.inl (by decide))

/-- C10: with a preference other than NO_RESTORE and save data present, if the load callback
returns a falsy value (false in particular) or throws, then `handleRestore()` returns false;
nothing happened but the one call of `loadGame`, so `renderAll` is not invoked, no prompt is
shown and the `hasShownPrompt` flag stays as it was. -/
theorem handleRestore_load_fails (w : World) (prompt : Completion Bool) (load : LoadFn)
    (hpref : getPreference w ≠ PREFERENCES.NO_RESTORE) (hsave : hasAutoSave w = true)
    (hload : w.self.loadGame = some load)
    (hfail : (load w.localStorage.items).completion = .throw ∨
      ∃ v, (load w.localStorage.items).completion = .normal v ∧ v.truthy = false) :
    handleRestore prompt w =
        (.normal false, (w.emit .loadGame).withItems (load w.localStorage.items).items) ∧
      (handleRestore prompt w).2.trace.count .renderAll = w.trace.count .renderAll ∧
      promptCount (handleRestore prompt w).2 = promptCount w ∧
      (handleRestore prompt w).2.self.hasShownPrompt = w.self.hasShownPrompt := by
  have h : handleRestore prompt w =
      (.normal false, (w.emit .loadGame).withItems (load w.localStorage.items).items) := by
    unfold handleRestore handleRestoreStart
    simp only [hpref, if_false, hsave, restoreAutoSave_of_load w load hsave hload]
    rcases hfail with hc | ⟨v, hc, hv⟩
    · simp [hc, JsVal.truthy]
    · simp [hc, hv]
  rw [h]
  refine ⟨rfl, ?_, ?_, ?_⟩
  · simp [trace_withItems, count_emit]
  · simp [promptCount, trace_withItems, count_emit]
  · simp [self_withItems, self_emit]

/-- C10 (witness): 'auto_restore' stored, a save blob present, a load callback that throws. -/
theorem handleRestore_load_fails_witness :
    (handleRestore (.normal false)
      (setRenderCallback (some renderReturning) (setLoadCallback (some loadThrowing)
        (sampleWorld [(AUTOSAVE_PREFERENCE_KEY, PREFERENCES.AUTO_RESTORE),
          (SAVE_KEY, "blob")])))).1 = .normal false := by
  have h := handleRestore_load_fails
    (setRenderCallback (some renderReturning) (setLoadCallback (some loadThrowing)
      (sampleWorld [(AUTOSAVE_PREFERENCE_KEY, PREFERENCES.AUTO_RESTORE), (SAVE_KEY, "blob")])))
    (.normal false) loadThrowing (by decide) (by decide) rfl (Or.inl rfl)
  rw [h.1]

/-! ## At most one restore prompt -/

/-- A scheduler trigger adds nothing but `saveGame` and `setItem` events to the trace. -/
theorem saveTrigger_count (now : Nat) (w : World) (e : Event)
    (he : ∀ key value, e ≠ .setItem key value) (hs : ∀ silent, e ≠ .saveGame silent) :
    (saveTrigger now w).2.trace.count e = w.trace.count e := by
  have hne : Event.saveGame true ≠ e := fun h => hs _ h.symm
  unfold saveTrigger
  cases hcond : (getPreference w != PREFERENCES.NO_RESTORE && w.self.game) with
  | false => simp [hcond]
  | true =>
    cases hsg : w.self.saveGame with
    | none => simp [hcond, autoSave_count now w e he]
    | some saveGame =>
      cases hc : (saveGame true w.localStorage.items).completion with
      | throw => simp [hcond, hc, trace_withItems, count_emit, hne]
      | normal u =>
        simp only [hcond, hc, if_true]
        rw [autoSave_count _ _ e he, trace_withItems, count_emit]
        simp [hne]

/-- A scheduler trigger leaves the `hasShownPrompt` flag alone. -/
theorem saveTrigger_flag (now : Nat) (w : World) :
    (saveTrigger now w).2.self.hasShownPrompt = w.self.hasShownPrompt := by
  unfold saveTrigger
  cases hcond : (getPreference w != PREFERENCES.NO_RESTORE && w.self.game) with
  | false => simp [hcond]
  | true =>
    cases hsg : w.self.saveGame with
    | none => simp [hcond, autoSave_self]
    | some saveGame =>
      cases hc : (saveGame true w.localStorage.items).completion with
      | throw => simp [hcond, hc, self_withItems, self_emit]
      | normal u => simp [hcond, hc, autoSave_self, self_withItems, self_emit]

/-- The save handler of the settings dialog adds nothing but `setItem` events to the trace. -/
theorem settingsSave_count (selected : Option String) (checked : Bool) (w : World) (e : Event)
    (he : ∀ key value, e ≠ .setItem key value) :
    (settingsSave selected checked w).2.trace.count e = w.trace.count e := by
  unfold settingsSave
  cases selected with
  | none => rfl
  | some selectedPref =>
    have hne : Event.setItem RESET_PROMPT_KEY (if checked then "true" else "false") ≠ e :=
      fun h => he _ _ h.symm
    have hpre := setPreference_count (.str selectedPref) w e he
    cases hset : (setPreference (.str selectedPref) w).2.localStorage.setItem RESET_PROMPT_KEY
        (if checked then "true" else "false") <;>
      simp [hset, count_emit, hne, hpre]

/-- The save handler of the settings dialog leaves the fields of the manager alone. -/
theorem settingsSave_self (selected : Option String) (checked : Bool) (w : World) :
    (settingsSave selected checked w).2.self = w.self := by
  unfold settingsSave
  cases selected with
  | none => rfl
  | some selectedPref =>
    cases hset : (setPreference (.str selectedPref) w).2.localStorage.setItem RESET_PROMPT_KEY
        (if checked then "true" else "false") <;>
      simp [hset, self_emit, setPreference_self]

/-- The part of `handleRestore` after the `await` shows no prompt. -/
theorem handleRestoreResume_count (prompt : Completion Bool) (w : World) :
    promptCount (handleRestoreResume prompt w).2 = promptCount w := by
  unfold handleRestoreResume promptCount
  cases prompt with
  | throw => rfl
  | normal disable =>
    cases disable with
    | false => simp
    | true => simp [setPreference_count]

/-- The part of `handleRestore` after the `await` leaves the fields of the manager alone. -/
theorem handleRestoreResume_self (prompt : Completion Bool) (w : World) :
    (handleRestoreResume prompt w).2.self = w.self := by
  unfold handleRestoreResume
  cases prompt with
  | throw => rfl
  | normal disable =>
    cases disable with
    | false => simp
    | true => simp [setPreference_self]

/-- The synchronous part of `handleRestore` either settles, without a prompt and without a
change of the flag, or suspends at the prompt; it suspends only when the flag was unset, and
then it has set the flag and shown one prompt. -/
theorem handleRestoreStart_flag (w : World) :
    (∃ r w1, handleRestoreStart w = .settled r w1 ∧
        w1.self.hasShownPrompt = w.self.hasShownPrompt ∧ promptCount w1 = promptCount w) ∨
      (∃ w1, handleRestoreStart w = .awaiting w1 ∧ w.self.hasShownPrompt = false ∧
        w1.self.hasShownPrompt = true ∧ promptCount w1 = promptCount w + 1) := by
  by_cases hp : getPreference w = PREFERENCES.NO_RESTORE
  · exact Or.inl ⟨_, _, handleRestoreStart_of_no_restore w hp, rfl, rfl⟩
  · cases hs : hasAutoSave w with
    | false =>
      have hstart : handleRestoreStart w = .settled (.normal false) w := by
        unfold handleRestoreStart
        simp [hp, hs]
      exact Or.inl ⟨_, _, hstart, rfl, rfl⟩
    | true =>
      have hself1 := restoreAutoSave_self w
      have hcount1 := restoreAutoSave_count w .showRestorePrompt (by simp)
      cases hres : restoreAutoSave w with
      | mk restored w1 =>
        rw [hres] at hself1 hcount1
        simp only at hself1 hcount1
        cases ht : restored.truthy with
        | false =>
          have hstart : handleRestoreStart w = .settled (.normal false) w1 := by
            unfold handleRestoreStart
            simp [hp, hs, hres, ht]
          refine Or.inl ⟨_, _, hstart, ?_, ?_⟩
          · rw [hself1]
          · exact hcount1
        | true =>
          have hself2 := renderIfAttached_self w1
          have hcount2 := renderIfAttached_count w1 .showRestorePrompt (by simp)
          cases hren : renderIfAttached w1 with
          | mk c w2 =>
            rw [hren] at hself2 hcount2
            simp only at hself2 hcount2
            cases c with
            | throw =>
              have hstart : handleRestoreStart w = .settled .throw w2 := by
                unfold handleRestoreStart
                simp [hp, hs, hres, ht, hren]
              refine Or.inl ⟨_, _, hstart, ?_, ?_⟩
              · rw [hself2, hself1]
              · simp only [promptCount]
                rw [hcount2, hcount1]
            | normal u =>
              by_cases hq : getPreference w = PREFERENCES.ASK_RESTORE ∧
                  w2.self.hasShownPrompt = false
              · have hstart : handleRestoreStart w = .awaiting (showRestorePrompt
                    { w2 with self := { w2.self with hasShownPrompt := true } }) := by
                  unfold handleRestoreStart
                  simp only [hp, if_false, hs, hres, ht, hren]
                  simp [hq.2, hq.1]
                refine Or.inr ⟨_, hstart, ?_, ?_, ?_⟩
                · rw [← hself1, ← hself2]
                  exact hq.2
                · rfl
                · simp only [promptCount, showRestorePrompt, count_emit]
                  rw [hcount2, hcount1]
                  simp
              · have hstart : handleRestoreStart w = .settled (.normal true) w2 := by
                  unfold handleRestoreStart
                  simp only [hp, if_false, hs, hres, ht, hren]
                  simp [hq]
                refine Or.inl ⟨_, _, hstart, ?_, ?_⟩
                · rw [hself2, hself1]
                · simp only [promptCount]
                  rw [hcount2, hcount1]

/-- One operation either shows no prompt and keeps the flag, or finds the flag unset, sets
it and shows one prompt. -/
theorem step_flag_count (p : Page) (op : Op) :
    ((p.step op).world.self.hasShownPrompt = p.world.self.hasShownPrompt ∧
        promptCount (p.step op).world = promptCount p.world) ∨
      (p.world.self.hasShownPrompt = false ∧ (p.step op).world.self.hasShownPrompt = true ∧
        promptCount (p.step op).world = promptCount p.world + 1) := by
  cases op with
  | setSaveCallback f => exact Or.inl ⟨rfl, rfl⟩
  | setLoadCallback f => exact Or.inl ⟨rfl, rfl⟩
  | setRenderCallback f => exact Or.inl ⟨rfl, rfl⟩
  | setGameReference g => exact Or.inl ⟨rfl, rfl⟩
  | setPreference v =>
    refine Or.inl ⟨?_, ?_⟩
    · simp [Page.step, setPreference_self]
    · simp [Page.step, promptCount, setPreference_count]
  | autoSave now =>
    refine Or.inl ⟨?_, ?_⟩
    · simp [Page.step, autoSave_self]
    · simp [Page.step, promptCount, autoSave_count]
  | restoreAutoSave =>
    refine Or.inl ⟨?_, ?_⟩
    · simp [Page.step, restoreAutoSave_self]
    · simp [Page.step, promptCount, restoreAutoSave_count]
  | clearAutoSave =>
    refine Or.inl ⟨?_, ?_⟩
    · simp [Page.step, clearAutoSave_self]
    · simp [Page.step, promptCount, clearAutoSave_count]
  | saveTrigger now =>
    refine Or.inl ⟨?_, ?_⟩
    · simp [Page.step, saveTrigger_flag]
    · simp [Page.step, promptCount, saveTrigger_count]
  | settingsSave sel chk =>
    refine Or.inl ⟨?_, ?_⟩
    · simp [Page.step, settingsSave_self]
    · simp [Page.step, promptCount, settingsSave_count]
  | handleRestore =>
    rcases handleRestoreStart_flag p.world with ⟨r, w1, hstart, hflag, hcount⟩ |
      ⟨w1, hstart, hunset, hset, hcount⟩
    · exact Or.inl (by simp [Page.step, hstart, hflag, hcount])
    · exact Or.inr (by simp [Page.step, hstart, hunset, hset, hcount])
  | settlePrompt prompt =>
    refine Or.inl ?_
    by_cases h0 : p.suspended = 0
    · simp [Page.step, h0]
    · simp [Page.step, h0, handleRestoreResume_self, handleRestoreResume_count]
  | external f => exact Or.inl ⟨rfl, rfl⟩

/-- The invariant behind "at most one prompt": at most one prompt has been shown, and none
as long as the flag is unset. It is kept by every sequence of operations. -/
theorem run_invariant (ops : List Op) (p : Page)
    (h : promptCount p.world ≤ 1 ∧
      (p.world.self.hasShownPrompt = false → promptCount p.world = 0)) :
    promptCount (p.run ops).world ≤ 1 ∧
      ((p.run ops).world.self.hasShownPrompt = false → promptCount (p.run ops).world = 0) := by
  induction ops generalizing p with
  | nil => exact h
  | cons op rest ih =>
    have hrun : p.run (op :: rest) = (p.step op).run rest := rfl
    rw [hrun]
    apply ih
    rcases step_flag_count p op with ⟨hflag, hcount⟩ | ⟨hunset, hset, hcount⟩
    · rw [hflag, hcount]
      exact h
    · have h0 := h.2 hunset
      rw [hcount, h0, hset]
      exact ⟨le_refl 1, fun hc => absurd hc (by simp)⟩

/-- A call of `handleRestore` on a manager whose flag is set shows no prompt. -/
theorem handleRestore_flag_set (prompt : Completion Bool) (w : World)
    (hflag : w.self.hasShownPrompt = true) :
    promptCount (handleRestore prompt w).2 = promptCount w := by
  unfold handleRestore
  rcases handleRestoreStart_flag w with ⟨r, w1, hstart, _, hcount⟩ | ⟨w1, _, hunset, _, _⟩
  · rw [hstart]
    exact hcount
  · rw [hflag] at hunset
    exact absurd hunset (by simp)

/-- C6 (counterexample): 'ask_restore' stored, a save blob present, a load callback that
returns true and a render callback that throws, on a fresh manager: two consecutive
`handleRestore()` calls are both rejected at the render step, before the flag is set, and
show the prompt not once but never. -/
theorem two_calls_no_prompt_when_render_throws :
    getPreference (throwingRenderWorld [(AUTOSAVE_PREFERENCE_KEY, PREFERENCES.ASK_RESTORE),
        (SAVE_KEY, "blob")]) = PREFERENCES.ASK_RESTORE ∧
      hasAutoSave (throwingRenderWorld [(AUTOSAVE_PREFERENCE_KEY, PREFERENCES.ASK_RESTORE),
        (SAVE_KEY, "blob")]) = true ∧
      promptCount (handleRestore (.normal false) (handleRestore (.normal false)
        (throwingRenderWorld [(AUTOSAVE_PREFERENCE_KEY, PREFERENCES.ASK_RESTORE),
          (SAVE_KEY, "blob")])).2).2 = 0 ∧
      (handleRestore (.normal false) (handleRestore (.normal false)
        (throwingRenderWorld [(AUTOSAVE_PREFERENCE_KEY, PREFERENCES.ASK_RESTORE),
          (SAVE_KEY, "blob")])).2).2.trace = [.loadGame, .renderAll, .loadGame, .renderAll] ∧
      (handleRestore (.normal false) (handleRestore (.normal false)
        (throwingRenderWorld [(AUTOSAVE_PREFERENCE_KEY, PREFERENCES.ASK_RESTORE),
          (SAVE_KEY, "blob")])).2).2.self.hasShownPrompt = false := by
  decide

/-- C6 (amended): at most one restore prompt per process lifetime. After every sequence of
operations on a freshly constructed manager the prompt has been shown at most once; no
operation resets a set `hasShownPrompt` flag; and with the flag unset, preference
ASK_RESTORE, save data, a load callback that succeeds and a render callback that is missing
or returns, two consecutive `handleRestore()` calls show the prompt exactly once. -/
theorem prompt_at_most_once :
    (∀ (ls : LocalStorage) (ops : List Op), promptCount ((Page.fresh ls).run ops).world ≤ 1) ∧
      (∀ (p : Page) (op : Op), p.world.self.hasShownPrompt = true →
        (p.step op).world.self.hasShownPrompt = true) ∧
      (∀ (w : World) (load : LoadFn) (v : JsVal) (first second : Completion Bool),
        w.self.hasShownPrompt = false →
        getPreference w = PREFERENCES.ASK_RESTORE → hasAutoSave w = true →
        w.self.loadGame = some load →
        (load w.localStorage.items).completion = .normal v → v.truthy = true →
        (∀ render, w.self.renderAll = some render →
          (render (load w.localStorage.items).items).completion = .normal ()) →
        promptCount (handleRestore second (handleRestore first w).2).2 = promptCount w + 1) := by
  refine ⟨?_, ?_, ?_⟩
  · intro ls ops
    exact (run_invariant ops (Page.fresh ls) ⟨by simp [Page.fresh, World.fresh, promptCount],
      fun _ => by simp [Page.fresh, World.fresh, promptCount]⟩).1
  · intro p op hflag
    rcases step_flag_count p op with ⟨h, _⟩ | ⟨hunset, _, _⟩
    · rw [h]
      exact hflag
    · rw [hflag] at hunset
      exact absurd hunset (by simp)
  · intro w load v first second hflag hpref hsave hload hv htruthy hret
    have hnormal := renderIfAttached_normal
      ((w.emit .loadGame).withItems (load w.localStorage.items).items) hret
    have hstart := handleRestore_prompted w load v hflag hpref hsave hload hv htruthy _
      (Prod.ext hnormal rfl)
    have hfirst : handleRestore first w = handleRestoreResume first (showRestorePrompt
        { (renderIfAttached
            ((w.emit .loadGame).withItems (load w.localStorage.items).items)).2 with
          self := { (renderIfAttached
            ((w.emit .loadGame).withItems (load w.localStorage.items).items)).2.self with
              hasShownPrompt := true } }) := by
      unfold handleRestore
      rw [hstart]
    have hset : (handleRestore first w).2.self.hasShownPrompt = true := by
      rw [hfirst, handleRestoreResume_self]
      rfl
    rw [handleRestore_flag_set second _ hset, hfirst, handleRestoreResume_count]
    simp only [promptCount, showRestorePrompt, count_emit]
    rw [renderIfAttached_count _ _ (by simp), trace_withItems, count_emit]
    simp

/-- C6 (witness): the third part at a fresh page with 'ask_restore' stored, a save blob and
returning callbacks, the user keeping the feature on: two calls, one prompt. -/
theorem prompt_at_most_once_witness :
    promptCount (handleRestore (.normal false) (handleRestore (.normal false)
      (wiredWorld [(AUTOSAVE_PREFERENCE_KEY, PREFERENCES.ASK_RESTORE), (SAVE_KEY, "blob")]
        (.bool true))).2).2 = 1 := by
  have h := prompt_at_most_once.2.2
    (wiredWorld [(AUTOSAVE_PREFERENCE_KEY, PREFERENCES.ASK_RESTORE), (SAVE_KEY, "blob")]
      (.bool true))
    (loadReturning (.bool true)) (.bool true) (.normal false) (.normal false) rfl (by decide)
    (by decide) rfl rfl rfl
    (fun render hr => by
      cases hr
      rfl)
  exact h

/-! ## The answer to the restore prompt -/

/-- Reading back a preference whose write succeeded. -/
theorem getPreference_setPreference (w : World) (p : String) (hp : p ∈ PREFERENCES.values)
    (hwrite : ∃ ls, w.localStorage.setItem AUTOSAVE_PREFERENCE_KEY p = .normal ls) :
    getPreference (setPreference (.str p) w).2 = p := by
  obtain ⟨hd, hq⟩ := (setItem_normal_iff _ _ _).mp hwrite
  rw [getPreference_after_write w p hp hd hq]
  have hne := ne_empty_of_mem_values hp
  simp [getPreference, LocalStorage.getItem, World.emit, hd, hne]

/-- C8 (counterexample): the storage is full, so that every `setItem` throws; 'ask_restore'
is stored, a save blob is present and the callbacks return. `handleRestore()` shows the
prompt, the user chooses "disable", and `handleRestore()` returns true; but `getPreference()`
still returns 'ask_restore', and a further `handleRestore()` loads again and returns true. -/
theorem handleRestore_disable_on_full_storage :
    promptCount (handleRestore (.normal true) (fullStorageWorld [(AUTOSAVE_PREFERENCE_KEY,
        PREFERENCES.ASK_RESTORE), (SAVE_KEY, "blob")])).2 = 1 ∧
      (handleRestore (.normal true) (fullStorageWorld [(AUTOSAVE_PREFERENCE_KEY,
        PREFERENCES.ASK_RESTORE), (SAVE_KEY, "blob")])).1 = .normal true ∧
      getPreference (handleRestore (.normal true) (fullStorageWorld [(AUTOSAVE_PREFERENCE_KEY,
        PREFERENCES.ASK_RESTORE), (SAVE_KEY, "blob")])).2 = PREFERENCES.ASK_RESTORE ∧
      getPreference (handleRestore (.normal true) (fullStorageWorld [(AUTOSAVE_PREFERENCE_KEY,
        PREFERENCES.ASK_RESTORE), (SAVE_KEY, "blob")])).2 ≠ PREFERENCES.NO_RESTORE ∧
      (handleRestore (.normal false) (handleRestore (.normal true) (fullStorageWorld
        [(AUTOSAVE_PREFERENCE_KEY, PREFERENCES.ASK_RESTORE), (SAVE_KEY, "blob")])).2).1
        = .normal true ∧
      (handleRestore (.normal false) (handleRestore (.normal true) (fullStorageWorld
        [(AUTOSAVE_PREFERENCE_KEY, PREFERENCES.ASK_RESTORE), (SAVE_KEY, "blob")])).2).2.trace.count
        .loadGame = 2 := by
  decide

/-- A truthy result of `restoreAutoSave` comes from a call of the attached `loadGame` on an
existing save blob. -/
theorem restoreAutoSave_truthy (w : World) (h : (restoreAutoSave w).1.truthy = true) :
    ∃ load, w.self.loadGame = some load ∧ hasAutoSave w = true ∧
      (restoreAutoSave w).2 = (w.emit .loadGame).withItems (load w.localStorage.items).items := by
  cases hs : hasAutoSave w with
  | false =>
    exfalso
    revert h
    unfold restoreAutoSave
    unfold hasAutoSave at hs
    cases hget : w.localStorage.getItem SAVE_KEY with
    | throw => simp [JsVal.truthy]
    | normal data =>
      cases data with
      | none => simp [truthyItem, JsVal.truthy]
      | some blob =>
        simp only [hget] at hs
        simp [truthyItem, hs, JsVal.truthy]
  | true =>
    cases hl : w.self.loadGame with
    | none =>
      exfalso
      revert h
      unfold restoreAutoSave
      cases hget : w.localStorage.getItem SAVE_KEY with
      | throw => simp [JsVal.truthy]
      | normal data => cases hd : truthyItem data <;> simp [hd, hl, JsVal.truthy]
    | some load =>
      refine ⟨load, rfl, rfl, ?_⟩
      rw [restoreAutoSave_of_load w load hs hl]

/-- The storage after the guarded call of `renderAll`. -/
theorem renderIfAttached_storage (w : World) :
    (renderIfAttached w).2.localStorage =
      { w.localStorage with
        items := match w.self.renderAll with
          | some render => (render w.localStorage.items).items
          | none => w.localStorage.items } := by
  unfold renderIfAttached
  cases hr : w.self.renderAll with
  | none => rfl
  | some render => rfl

/-- When `handleRestore` suspends at the prompt, the preference read was ASK_RESTORE, the
flag was unset, and the storage is the one the callbacks left. -/
theorem handleRestoreStart_awaiting (w w1 : World)
    (hshown : handleRestoreStart w = .awaiting w1) :
    getPreference w = PREFERENCES.ASK_RESTORE ∧ hasAutoSave w = true ∧
      w.self.hasShownPrompt = false ∧
      w1.localStorage = { w.localStorage with items := itemsAfterRestore w } := by
  by_cases hp : getPreference w = PREFERENCES.NO_RESTORE
  · rw [handleRestoreStart_of_no_restore w hp] at hshown
    cases hshown
  · cases hs : hasAutoSave w with
    | false =>
      unfold handleRestoreStart at hshown
      simp [hp, hs] at hshown
    | true =>
      cases ht : (restoreAutoSave w).1.truthy with
      | false =>
        unfold handleRestoreStart at hshown
        simp [hp, hs, ht] at hshown
      | true =>
        obtain ⟨load, hl, _, hw1⟩ := restoreAutoSave_truthy w ht
        have hstore := renderIfAttached_storage (restoreAutoSave w).2
        have hself := renderIfAttached_self (restoreAutoSave w).2
        cases hren : renderIfAttached (restoreAutoSave w).2 with
        | mk c w2 =>
          rw [hren] at hstore hself
          simp only at hstore hself
          unfold handleRestoreStart at hshown
          simp only [hp, if_false, hs, ht, hren] at hshown
          cases c with
          | throw => simp at hshown
          | normal u =>
            by_cases hq : getPreference w = PREFERENCES.ASK_RESTORE ∧
                w2.self.hasShownPrompt = false
            · simp only [hq.1, hq.2] at hshown
              simp at hshown
              refine ⟨hq.1, rfl, ?_, ?_⟩
              · rw [← restoreAutoSave_self w, ← hself]
                exact hq.2
              · rw [← hshown]
                simp only [showRestorePrompt, World.emit]
                rw [hstore, hw1]
                simp only [self_withItems, self_emit, World.withItems, World.emit,
                  itemsAfterRestore, hl]
            · simp only [hq] at hshown
              simp at hshown

/-- C8 (amended): let a call of `handleRestore()` show the restore prompt. If the prompt
resolves with {disable: true} and the write of 'no_restore' under the preference key
succeeds, then `handleRestore()` returns true, a subsequent `getPreference()` returns
NO_RESTORE and a further `handleRestore()` returns false and leaves the world as it is (no
load). If the prompt resolves with {disable: false}, `handleRestore()` returns true and
writes nothing: the storage is the one the callbacks left, so `getPreference()` returns what
it returned before the call unless a callback rewrote the preference key. -/
theorem handleRestore_prompt_answer (w w1 : World)
    (hshown : handleRestoreStart w = .awaiting w1) :
    ((∃ ls, w1.localStorage.setItem AUTOSAVE_PREFERENCE_KEY PREFERENCES.NO_RESTORE = .normal ls) →
        (handleRestore (.normal true) w).1 = .normal true ∧
        getPreference (handleRestore (.normal true) w).2 = PREFERENCES.NO_RESTORE ∧
        ∀ prompt, handleRestore prompt (handleRestore (.normal true) w).2 =
          (.normal false, (handleRestore (.normal true) w).2)) ∧
      handleRestore (.normal false) w = (.normal true, w1) ∧
      (handleRestore (.normal false) w).2.localStorage =
        { w.localStorage with items := itemsAfterRestore w } ∧
      (itemsAfterRestore w AUTOSAVE_PREFERENCE_KEY =
          w.localStorage.items AUTOSAVE_PREFERENCE_KEY →
        getPreference (handleRestore (.normal false) w).2 = getPreference w) := by
  have hyes : handleRestore (.normal true) w =
      (.normal true, (setPreference (.str PREFERENCES.NO_RESTORE) w1).2) := by
    unfold handleRestore
    rw [hshown]
    rfl
  have hno : handleRestore (.normal false) w = (.normal true, w1) := by
    unfold handleRestore
    rw [hshown]
    rfl
  obtain ⟨_, _, _, hstore⟩ := handleRestoreStart_awaiting w w1 hshown
  refine ⟨?_, hno, by rw [hno]; exact hstore, ?_⟩
  · intro hwrite
    have hget := getPreference_setPreference w1 PREFERENCES.NO_RESTORE (by decide) hwrite
    rw [hyes]
    refine ⟨rfl, hget, ?_⟩
    intro prompt
    unfold handleRestore
    rw [handleRestoreStart_of_no_restore _ hget]
  · intro hkey
    rw [hno]
    simp only [getPreference, LocalStorage.getItem, hstore, hkey]

/-- C8 (witness): a fresh page on a working storage with 'ask_restore' stored, a save blob
and returning callbacks: the prompt is shown, and "disable" makes `getPreference()` return
'no_restore'. -/
theorem handleRestore_prompt_answer_witness :
    getPreference (handleRestore (.normal true) (wiredWorld [(AUTOSAVE_PREFERENCE_KEY,
      PREFERENCES.ASK_RESTORE), (SAVE_KEY, "blob")] (.bool true))).2 =
        PREFERENCES.NO_RESTORE :=
  ((handleRestore_prompt_answer
    (wiredWorld [(AUTOSAVE_PREFERENCE_KEY, PREFERENCES.ASK_RESTORE), (SAVE_KEY, "blob")]
      (.bool true)) _ rfl).1 ⟨_, rfl⟩).2.1

/-! ## The restore decision as a whole -/

/-- With a save blob there, the result of `restoreAutoSave` is truthy exactly when the
attached `loadGame` returns a truthy value. -/
theorem restoreAutoSave_truthy_iff (w : World) (hsave : hasAutoSave w = true) :
    (restoreAutoSave w).1.truthy = true ↔
      ∃ load v, w.self.loadGame = some load ∧
        (load w.localStorage.items).completion = .normal v ∧ v.truthy = true := by
  constructor
  · intro h
    obtain ⟨load, hload, _, _⟩ := restoreAutoSave_truthy w h
    rw [restoreAutoSave_of_load w load hsave hload] at h
    cases hc : (load w.localStorage.items).completion with
    | throw => simp [hc, JsVal.truthy] at h
    | normal v =>
      simp only [hc] at h
      exact ⟨load, v, hload, hc, h⟩
  · rintro ⟨load, v, hload, hc, hv⟩
    rw [restoreAutoSave_of_load w load hsave hload]
    simp only [hc]
    exact hv

/-- The trace after the guarded call of `renderAll`. -/
theorem renderIfAttached_trace (w : World) :
    (renderIfAttached w).2.trace =
      w.trace ++ (if w.self.renderAll.isSome then [.renderAll] else []) := by
  unfold renderIfAttached
  cases hr : w.self.renderAll with
  | none => simp
  | some render => simp [World.emit, World.withItems]

/-- The trace after `setPreference` of an enum member: one `setItem` call, whether it threw
or not. -/
theorem setPreference_trace (p : String) (hp : p ∈ PREFERENCES.values) (w : World) :
    (setPreference (.str p) w).2.trace = w.trace ++ [.setItem AUTOSAVE_PREFERENCE_KEY p] := by
  unfold setPreference
  rw [isPreferenceValue_str p hp]
  cases hset : w.localStorage.setItem AUTOSAVE_PREFERENCE_KEY p <;> simp [hset, World.emit]

/-- A call of `handleRestore` that does not get a truthy result from `restoreAutoSave`
returns false. -/
theorem handleRestore_of_not_restored (prompt : Completion Bool) (w : World)
    (h : getPreference w = PREFERENCES.NO_RESTORE ∨ hasAutoSave w = false ∨
      (restoreAutoSave w).1.truthy = false) :
    (handleRestore prompt w).1 = .normal false := by
  unfold handleRestore handleRestoreStart
  by_cases hp : getPreference w = PREFERENCES.NO_RESTORE
  · simp [hp]
  · cases hs : hasAutoSave w with
    | false => simp [hp, hs]
    | true =>
      rcases h with h | h | h
      · exact absurd h hp
      · rw [hs] at h
        exact absurd h (by simp)
      · simp [hp, hs, h]

/-- A call of `handleRestore` whose synchronous part settles. -/
theorem handleRestore_of_settled (prompt : Completion Bool) (w w1 : World)
    (result : Completion Bool) (h : handleRestoreStart w = .settled result w1) :
    handleRestore prompt w = (result, w1) := by
  unfold handleRestore
  rw [h]

/-- A call of `handleRestore` whose synchronous part suspends at the prompt. -/
theorem handleRestore_of_awaiting (prompt : Completion Bool) (w w1 : World)
    (h : handleRestoreStart w = .awaiting w1) :
    handleRestore prompt w = handleRestoreResume prompt w1 := by
  unfold handleRestore
  rw [h]

/-- The trace of a world that got one more event. -/
theorem trace_emit (w : World) (e : Event) : (w.emit e).trace = w.trace ++ [e] := rfl

/-- The trace when the prompt has just been shown. -/
theorem trace_showRestorePrompt (w : World) :
    (showRestorePrompt { w with self := { w.self with hasShownPrompt := true } }).trace =
      w.trace ++ [.showRestorePrompt] := rfl

/-- An answered prompt makes `handleRestore` return true. -/
theorem handleRestoreResume_result (disable : Bool) (w : World) :
    (handleRestoreResume (.normal disable) w).1 = .normal true := by
  cases disable <;> rfl

/-- The trace after the answer to the prompt: one write for "disable", nothing for "keep". -/
theorem handleRestoreResume_trace (disable : Bool) (w : World) :
    (handleRestoreResume (.normal disable) w).2.trace =
      w.trace ++ (if disable then [.setItem AUTOSAVE_PREFERENCE_KEY PREFERENCES.NO_RESTORE]
        else []) := by
  cases disable with
  | false => simp [handleRestoreResume]
  | true => simp [handleRestoreResume, setPreference_trace PREFERENCES.NO_RESTORE (by decide)]

/-- A call of `handleRestore` that gets a truthy result from `restoreAutoSave`, with a render
callback that is missing or returns: the result is true, and the trace shows the call of
`loadGame`, then the call of `renderAll` if attached, then the prompt if one is due, then the
write of the answer "disable". -/
theorem handleRestore_of_restored (disable : Bool) (w : World)
    (hpref : getPreference w ≠ PREFERENCES.NO_RESTORE) (hsave : hasAutoSave w = true)
    (htruthy : (restoreAutoSave w).1.truthy = true)
    (hret : ∀ render, w.self.renderAll = some render →
      ∀ items, (render items).completion = .normal ()) :
    (handleRestore (.normal disable) w).1 = .normal true ∧
      (handleRestore (.normal disable) w).2.trace =
        w.trace ++ [.loadGame] ++ (if w.self.renderAll.isSome then [.renderAll] else []) ++
          (if getPreference w = PREFERENCES.ASK_RESTORE ∧ w.self.hasShownPrompt = false then
            [.showRestorePrompt] ++
              (if disable then [.setItem AUTOSAVE_PREFERENCE_KEY PREFERENCES.NO_RESTORE]
               else [])
           else []) := by
  obtain ⟨load, v, hload, hv, hvt⟩ := (restoreAutoSave_truthy_iff w hsave).mp htruthy
  have hnormal := renderIfAttached_normal
    ((w.emit .loadGame).withItems (load w.localStorage.items).items)
    (fun render hr => hret render hr _)
  have htrace := renderIfAttached_trace
    ((w.emit .loadGame).withItems (load w.localStorage.items).items)
  simp only [self_withItems, self_emit, trace_withItems, trace_emit] at htrace
  by_cases hq : getPreference w = PREFERENCES.ASK_RESTORE ∧ w.self.hasShownPrompt = false
  · have hstart := handleRestore_prompted w load v hq.2 hq.1 hsave hload hv hvt _
      (Prod.ext hnormal rfl)
    rw [handleRestore_of_awaiting _ _ _ hstart]
    refine ⟨handleRestoreResume_result _ _, ?_⟩
    rw [handleRestoreResume_trace, trace_showRestorePrompt, htrace]
    simp [hq]
  · have hstart := handleRestoreStart_restored w load v hpref hsave hload hv hvt hnormal hq
    rw [handleRestore_of_settled _ _ _ _ hstart]
    refine ⟨rfl, ?_⟩
    simp only [htrace]
    simp [hq]

/-- C11 (counterexample): 'auto_restore' stored, a save blob present, a load callback that
returns true and a render callback that throws: the promise of `handleRestore()` is
rejected; the call completes with neither true nor false. -/
theorem handleRestore_render_throws :
    (handleRestore (.normal false) (throwingRenderWorld [(AUTOSAVE_PREFERENCE_KEY,
        PREFERENCES.AUTO_RESTORE), (SAVE_KEY, "blob")])).1 = .throw ∧
      (handleRestore (.normal false) (throwingRenderWorld [(AUTOSAVE_PREFERENCE_KEY,
        PREFERENCES.AUTO_RESTORE), (SAVE_KEY, "blob")])).1 ≠ .normal true ∧
      (handleRestore (.normal false) (throwingRenderWorld [(AUTOSAVE_PREFERENCE_KEY,
        PREFERENCES.AUTO_RESTORE), (SAVE_KEY, "blob")])).1 ≠ .normal false ∧
      (handleRestore (.normal false) (throwingRenderWorld [(AUTOSAVE_PREFERENCE_KEY,
        PREFERENCES.AUTO_RESTORE), (SAVE_KEY, "blob")])).2.trace = [.loadGame, .renderAll] := by
  decide

/-- C11 (amended): for every storage backend, one whose reads and writes throw included, and
every load callback, attached or missing, returning or throwing, provided the render
callback is missing or returns and the prompt, if shown, is answered: `handleRestore()`
completes with the boolean true or false, and no exception reaches the caller. -/
theorem handleRestore_completes (w : World) (disable : Bool)
    (hret : ∀ render, w.self.renderAll = some render →
      ∀ items, (render items).completion = .normal ()) :
    (handleRestore (.normal disable) w).1 = .normal true ∨
      (handleRestore (.normal disable) w).1 = .normal false := by
  by_cases hp : getPreference w = PREFERENCES.NO_RESTORE
  · exact Or.inr (handleRestore_of_not_restored _ w (Or.inl hp))
  · cases hs : hasAutoSave w with
    | false => exact Or.inr (handleRestore_of_not_restored _ w (Or.inr (Or.inl hs)))
    | true =>
      cases ht : (restoreAutoSave w).1.truthy with
      | false => exact Or.inr (handleRestore_of_not_restored _ w (Or.inr (Or.inr ht)))
      | true => exact Or.inl (handleRestore_of_restored disable w hp hs ht hret).1

/-- C11 (witness): a blocked storage (every read and write throws) and a load callback that
throws. -/
theorem handleRestore_completes_witness :
    (handleRestore (.normal true) (blockedWorld [(SAVE_KEY, "blob")])).1 = .normal true ∨
      (handleRestore (.normal true) (blockedWorld [(SAVE_KEY, "blob")])).1 = .normal false :=
  handleRestore_completes _ true (fun render hr => by cases hr)

/-! ## The timestamp -/

/-- The digit characters are read back as their values. -/
theorem digitOf_digitChar (d : Nat) (hd : d < 10) : digitOf (Nat.digitChar d) = some d := by
  interval_cases d <;> decide

/-- A digit character is no white space, no sign and no "x". -/
theorem digitChar_plain (d : Nat) (hd : d < 10) :
    isStrWhiteSpaceChar (Nat.digitChar d) = false ∧ Nat.digitChar d ≠ '-' ∧
      Nat.digitChar d ≠ '+' ∧ Nat.digitChar d ≠ 'x' ∧ Nat.digitChar d ≠ 'X' := by
  interval_cases d <;> decide

/-- Appending a digit multiplies by the radix and adds the digit. -/
theorem digitsValue_append (radix : Nat) (ds : List Nat) (d : Nat) :
    digitsValue radix (ds ++ [d]) = digitsValue radix ds * radix + d := by
  simp [digitsValue, List.foldl_append]

/-- The decimal digits of a number, as `Nat.toDigitsCore` produces them. -/
theorem toDigitsCore_digits (fuel n : Nat) (acc : List Char) (h : n < fuel) :
    ∃ ds : List Nat, ds ≠ [] ∧ (∀ d ∈ ds, d < 10) ∧
      Nat.toDigitsCore 10 fuel n acc = ds.map Nat.digitChar ++ acc ∧
      digitsValue 10 ds = n := by
  induction fuel generalizing n acc with
  | zero => omega
  | succ fuel ih =>
    by_cases h0 : n / 10 = 0
    · refine ⟨[n % 10], by simp, ?_, ?_, ?_⟩
      · intro d hd
        simp at hd
        omega
      · simp [Nat.toDigitsCore, h0]
      · simp [digitsValue]
        omega
    · have hlt : n / 10 < fuel := by omega
      obtain ⟨ds, _, hall, heq, hval⟩ := ih (n / 10) (Nat.digitChar (n % 10) :: acc) hlt
      refine ⟨ds ++ [n % 10], by simp, ?_, ?_, ?_⟩
      · intro d hd
        rcases List.mem_append.mp hd with hd | hd
        · exact hall d hd
        · simp at hd
          omega
      · simp [Nat.toDigitsCore, h0, heq]
      · rw [digitsValue_append, hval]
        omega

/-- The characters of the decimal string of a number. -/
theorem toString_digits (n : Nat) :
    ∃ ds : List Nat, ds ≠ [] ∧ (∀ d ∈ ds, d < 10) ∧
      (toString n).toList = ds.map Nat.digitChar ∧ digitsValue 10 ds = n := by
  obtain ⟨ds, hne, hall, heq, hval⟩ := toDigitsCore_digits (n + 1) n [] (by omega)
  refine ⟨ds, hne, hall, ?_, hval⟩
  have hstr : (toString n).toList = Nat.toDigitsCore 10 (n + 1) n [] := rfl
  rw [hstr, heq]
  simp

/-- All of a string of decimal digits is read. -/
theorem leadingDigits_digitChars (ds : List Nat) (hall : ∀ d ∈ ds, d < 10) :
    leadingDigits 10 (ds.map Nat.digitChar) = ds := by
  induction ds with
  | nil => rfl
  | cons d rest ih =>
    have hd : d < 10 := hall d (by simp)
    have hrest : ∀ x ∈ rest, x < 10 := fun x hx => hall x (by simp [hx])
    simp [leadingDigits, digitOf_digitChar d hd, hd, ih hrest]

/-- A string of decimal digits has no hexadecimal prefix. -/
theorem stripHexPrefix_digitChars (ds : List Nat) (hall : ∀ d ∈ ds, d < 10) :
    stripHexPrefix (ds.map Nat.digitChar) = (10, ds.map Nat.digitChar) := by
  match ds, hall with
  | [], _ => rfl
  | [d], _ => rfl
  | d1 :: d2 :: rest, hall =>
    have h2 := digitChar_plain d2 (hall d2 (by simp))
    simp [stripHexPrefix, h2.2.2.2.1, h2.2.2.2.2]

/-- The value of `parseInt` on the decimal string of a natural number is that number. -/
theorem parseInt_toString (n : Nat) : parseInt (toString n) = .num n := by
  obtain ⟨ds, hne, hall, hchars, hval⟩ := toString_digits n
  unfold parseInt
  rw [hchars]
  cases ds with
  | nil => exact absurd rfl hne
  | cons d rest =>
    have hd := digitChar_plain d (hall d (by simp))
    have hdrop : List.dropWhile isStrWhiteSpaceChar (List.map Nat.digitChar (d :: rest)) =
        List.map Nat.digitChar (d :: rest) := by
      simp [List.dropWhile, hd.1]
    have hsign : stripSign (List.map Nat.digitChar (d :: rest)) =
        (false, List.map Nat.digitChar (d :: rest)) := by
      simp [stripSign, hd.2.1, hd.2.2.1]
    rw [hdrop, hsign]
    simp only [stripHexPrefix_digitChars (d :: rest) hall,
      leadingDigits_digitChars (d :: rest) hall, hval]
    simp

/-- The decimal string of a number is not empty. -/
theorem toString_ne_empty (n : Nat) : toString n ≠ "" := by
  obtain ⟨ds, hne, _, hchars, _⟩ := toString_digits n
  intro h
  rw [h] at hchars
  cases ds with
  | nil => exact hne rfl
  | cons d rest => simp at hchars

/-- A string whose first character is neither white space, nor a sign, nor a decimal digit
is read as NaN. -/
theorem parseInt_nan (s : String) (c : Char) (cs : List Char) (hs : s.toList = c :: cs)
    (hws : isStrWhiteSpaceChar c = false) (hminus : c ≠ '-') (hplus : c ≠ '+')
    (hdigit : ∀ d, digitOf c = some d → 10 ≤ d) :
    parseInt s = .nan := by
  have hzero : c ≠ '0' := by
    intro h
    have := hdigit 0 (by rw [h]; decide)
    omega
  have hlead : leadingDigits 10 (c :: cs) = [] := by
    unfold leadingDigits
    cases hd : digitOf c with
    | none => rfl
    | some d =>
      have := hdigit d hd
      simp
      omega
  have hhex : stripHexPrefix (c :: cs) = (10, c :: cs) := by
    cases cs with
    | nil => rfl
    | cons c2 rest => simp [stripHexPrefix, hzero]
  unfold parseInt
  rw [hs]
  simp [List.dropWhile, hws, stripSign, hminus, hplus, hhex, hlead]

/-- C12 (counterexample): with the string "yesterday" stored under the timestamp key, which
is not a number, `getAutoSaveTimestamp()` returns NaN, not null. -/
theorem getAutoSaveTimestamp_not_numeric :
    (timestampWorld "yesterday").localStorage.getItem AUTOSAVE_TIMESTAMP_KEY =
        .normal (some "yesterday") ∧
      getAutoSaveTimestamp (timestampWorld "yesterday") = .nan ∧
      getAutoSaveTimestamp (timestampWorld "yesterday") ≠ .null := by
  decide

/-- C12 (amended): `getAutoSaveTimestamp()` returns null when the timestamp key is absent,
when the read throws and when the stored string is empty; it returns the integer when the
key holds the decimal string of an integer (below 2^53, where a Number is exact); and for a
stored string that starts with a character that is neither white space, nor a sign, nor a
decimal digit it returns NaN, not null. -/
theorem getAutoSaveTimestamp_parses (w : World) :
    (w.localStorage.getItem AUTOSAVE_TIMESTAMP_KEY = .normal none →
        getAutoSaveTimestamp w = .null) ∧
      (w.localStorage.getItem AUTOSAVE_TIMESTAMP_KEY = .throw →
        getAutoSaveTimestamp w = .null) ∧
      (w.localStorage.getItem AUTOSAVE_TIMESTAMP_KEY = .normal (some "") →
        getAutoSaveTimestamp w = .null) ∧
      (∀ n : Nat, n < 2 ^ 53 →
        w.localStorage.getItem AUTOSAVE_TIMESTAMP_KEY = .normal (some (toString n)) →
        getAutoSaveTimestamp w = .num n) ∧
      (∀ (s : String) (c : Char) (cs : List Char),
        w.localStorage.getItem AUTOSAVE_TIMESTAMP_KEY = .normal (some s) →
        s.toList = c :: cs → isStrWhiteSpaceChar c = false → c ≠ '-' → c ≠ '+' →
        (∀ d, digitOf c = some d → 10 ≤ d) →
        getAutoSaveTimestamp w = .nan) := by
  refine ⟨?_, ?_, ?_, ?_, ?_⟩
  · intro h
    simp [getAutoSaveTimestamp, h]
  · intro h
    simp [getAutoSaveTimestamp, h]
  · intro h
    simp [getAutoSaveTimestamp, h]
  · intro n _ h
    simp [getAutoSaveTimestamp, h, toString_ne_empty n, parseInt_toString n]
  · intro s c cs h hs hws hminus hplus hdigit
    have hne : s ≠ "" := by
      intro h0
      rw [h0] at hs
      simp at hs
    simp [getAutoSaveTimestamp, h, hne, parseInt_nan s c cs hs hws hminus hplus hdigit]

/-! ## Save coordinator: theorems -/

/-- C13: `hasAutoSave()` returns true if and only if the save blob key exists in storage with
a non-empty value; it returns false when the storage read throws; and whatever is put under
the timestamp key, or removed from it, does not change its result. -/
theorem hasAutoSave_true_iff_blob (w : World) :
    (∀ data, w.localStorage.getItem SAVE_KEY = .normal data →
        (hasAutoSave w = true ↔ ∃ s, data = some s ∧ s ≠ "")) ∧
      (w.localStorage.getItem SAVE_KEY = .throw → hasAutoSave w = false) ∧
      (∀ timestamp : Option String,
        hasAutoSave (w.withItems (fun k =>
          if k = AUTOSAVE_TIMESTAMP_KEY then timestamp else w.localStorage.items k)) =
            hasAutoSave w) := by
  refine ⟨?_, ?_, ?_⟩
  · intro data h
    cases data with
    | none => simp [hasAutoSave, h]
    | some s => simp [hasAutoSave, h]
  · intro h
    simp [hasAutoSave, h]
  · intro timestamp
    have hkey : SAVE_KEY ≠ AUTOSAVE_TIMESTAMP_KEY := by decide
    simp [hasAutoSave, LocalStorage.getItem, World.withItems, hkey]

/-- C14: for every storage state `hasAutoSave()` is false immediately after
`clearAutoSave()`, and `getAutoSaveTimestamp()` is then null; on a storage that can be
reached `clearAutoSave()` returns true and has removed both the blob key and the timestamp
key and nothing else; and `hasAutoSave()` is false on an empty backend. -/
theorem hasAutoSave_after_clearAutoSave (w : World) :
    hasAutoSave (clearAutoSave w).2 = false ∧
      getAutoSaveTimestamp (clearAutoSave w).2 = .null ∧
      (w.localStorage.denied = false →
        (clearAutoSave w).1 = true ∧
        (clearAutoSave w).2.localStorage.items SAVE_KEY = none ∧
        (clearAutoSave w).2.localStorage.items AUTOSAVE_TIMESTAMP_KEY = none ∧
        ∀ k, k ≠ SAVE_KEY → k ≠ AUTOSAVE_TIMESTAMP_KEY →
          (clearAutoSave w).2.localStorage.items k = w.localStorage.items k) ∧
      (∀ ls : LocalStorage, (∀ k, ls.items k = none) → hasAutoSave (World.fresh ls) = false) := by
  have hkey : SAVE_KEY ≠ AUTOSAVE_TIMESTAMP_KEY := by decide
  refine ⟨?_, ?_, ?_, ?_⟩
  · cases hd : w.localStorage.denied with
    | true => simp [clearAutoSave, LocalStorage.removeItem, hd, hasAutoSave, LocalStorage.getItem,
        World.emit]
    | false => simp [clearAutoSave, LocalStorage.removeItem, hd, hasAutoSave,
        LocalStorage.getItem, World.emit, hkey]
  · cases hd : w.localStorage.denied with
    | true => simp [clearAutoSave, LocalStorage.removeItem, hd, getAutoSaveTimestamp,
        LocalStorage.getItem, World.emit]
    | false => simp [clearAutoSave, LocalStorage.removeItem, hd, getAutoSaveTimestamp,
        LocalStorage.getItem, World.emit]
  · intro hd
    refine ⟨?_, ?_, ?_, ?_⟩
    · simp [clearAutoSave, LocalStorage.removeItem, hd]
    · simp [clearAutoSave, LocalStorage.removeItem, hd, World.emit, hkey]
    · simp [clearAutoSave, LocalStorage.removeItem, hd, World.emit]
    · intro k h1 h2
      simp [clearAutoSave, LocalStorage.removeItem, hd, World.emit, h1, h2]
  · intro ls hempty
    cases hd : ls.denied <;>
      simp [hasAutoSave, LocalStorage.getItem, World.fresh, hd, hempty]

/-- What a successful `setItem` leaves in the storage. -/
theorem setItem_normal (ls : LocalStorage) (key value : String) (hd : ls.denied = false)
    (hq : ls.quotaExceeded key value = false) :
    ls.setItem key value =
      .normal { ls with items := fun k => if k = key then some value else ls.items k } := by
  simp [LocalStorage.setItem, hd, hq]

/-- C15: `autoSave()` with no game reference attached returns false and leaves the world,
the storage included, as it was; with a reference attached and a write that succeeds it
stores the decimal string of the current time (`now`, a value of `Date.now()` and so below
2^53) under the timestamp key and returns true, and `getAutoSaveTimestamp()` afterwards
returns that time; when the write throws it returns false, the throw being caught, and the
storage is unchanged. -/
theorem autoSave_records_time (now : Nat) (w : World) :
    (w.self.game = false → autoSave now w = (false, w)) ∧
      (w.self.game = true → now < 2 ^ 53 →
        (∃ ls, w.localStorage.setItem AUTOSAVE_TIMESTAMP_KEY (toString now) = .normal ls) →
        (autoSave now w).1 = true ∧
        (autoSave now w).2.localStorage.items AUTOSAVE_TIMESTAMP_KEY = some (toString now) ∧
        getAutoSaveTimestamp (autoSave now w).2 = .num now) ∧
      (w.self.game = true →
        w.localStorage.setItem AUTOSAVE_TIMESTAMP_KEY (toString now) = .throw →
        (autoSave now w).1 = false ∧ (autoSave now w).2.localStorage = w.localStorage) := by
  refine ⟨?_, ?_, ?_⟩
  · intro hg
    simp [autoSave, hg]
  · intro hg _ hwrite
    obtain ⟨hd, hq⟩ := (setItem_normal_iff _ _ _).mp hwrite
    have hset := setItem_normal w.localStorage AUTOSAVE_TIMESTAMP_KEY (toString now) hd hq
    simp [autoSave, hg, hset, getAutoSaveTimestamp, LocalStorage.getItem, World.emit, hd,
      toString_ne_empty now, parseInt_toString now]
  · intro hg hthrow
    simp [autoSave, hg, hthrow, World.emit]

/-- C15 (witness): the game attached on a working storage, at time 1730854478535. -/
theorem autoSave_records_time_witness :
    getAutoSaveTimestamp (autoSave 1730854478535 (playingWorld [])).2 = .num 1730854478535 :=
  ((autoSave_records_time 1730854478535 (playingWorld [])).2.1 rfl (by decide) ⟨_, rfl⟩).2.2

/-- C16: `restoreAutoSave()` returns false, without a call of the load callback, when the
save blob is absent or empty, when no load function is attached and when the storage read
throws; it returns false when the load callback throws; and otherwise it invokes the load
callback exactly once and returns exactly the value that callback returns. -/
theorem restoreAutoSave_delegates (w : World) :
    ((w.localStorage.getItem SAVE_KEY = .normal none ∨
        w.localStorage.getItem SAVE_KEY = .normal (some "")) →
        restoreAutoSave w = (.bool false, w)) ∧
      (w.self.loadGame = none → restoreAutoSave w = (.bool false, w)) ∧
      (w.localStorage.getItem SAVE_KEY = .throw → restoreAutoSave w = (.bool false, w)) ∧
      (∀ load, hasAutoSave w = true → w.self.loadGame = some load →
        (load w.localStorage.items).completion = .throw →
        (restoreAutoSave w).1 = .bool false ∧
          (restoreAutoSave w).2.trace = w.trace ++ [.loadGame]) ∧
      (∀ load v, hasAutoSave w = true → w.self.loadGame = some load →
        (load w.localStorage.items).completion = .normal v →
        (restoreAutoSave w).1 = v ∧ (restoreAutoSave w).2.trace = w.trace ++ [.loadGame] ∧
          (restoreAutoSave w).2.trace.count .loadGame = w.trace.count .loadGame + 1) := by
  refine ⟨?_, ?_, ?_, ?_, ?_⟩
  · rintro (h | h) <;> simp [restoreAutoSave, h, truthyItem]
  · intro h
    unfold restoreAutoSave
    cases hget : w.localStorage.getItem SAVE_KEY with
    | throw => rfl
    | normal data => cases hd : truthyItem data <;> simp [hd, h]
  · intro h
    simp [restoreAutoSave, h]
  · intro load hsave hload hc
    rw [restoreAutoSave_of_load w load hsave hload]
    simp [hc, trace_withItems, trace_emit]
  · intro load v hsave hload hc
    rw [restoreAutoSave_of_load w load hsave hload]
    simp [hc, trace_withItems, trace_emit]

/-- C16 (witness): a save blob present and a load callback that returns the string "loaded":
`restoreAutoSave()` returns that very string. -/
theorem restoreAutoSave_delegates_witness :
    (restoreAutoSave (wiredWorld [(SAVE_KEY, "blob")] (.str "loaded"))).1 = .str "loaded" :=
  ((restoreAutoSave_delegates (wiredWorld [(SAVE_KEY, "blob")] (.str "loaded"))).2.2.2.2
    (loadReturning (.str "loaded")) (.str "loaded") (by decide) rfl rfl).1

/-- C17 (counterexample): no preference stored (so 'ask_restore' is read), the game
reference attached and a save callback that throws: the trigger invokes `saveGame(true)` and
is left by the throw; `autoSave()` is not reached and the timestamp key is not written. -/
theorem saveTrigger_save_throws :
    getPreference (throwingSaveWorld []) ≠ PREFERENCES.NO_RESTORE ∧
      (throwingSaveWorld []).self.game = true ∧
      (saveTrigger 1730854478535 (throwingSaveWorld [])).1 = .throw ∧
      (saveTrigger 1730854478535 (throwingSaveWorld [])).2.trace = [.saveGame true] ∧
      (saveTrigger 1730854478535 (throwingSaveWorld [])).2.localStorage.items
        AUTOSAVE_TIMESTAMP_KEY = none ∧
      (autoSave 1730854478535 (throwingSaveWorld [])).2.localStorage.items
        AUTOSAVE_TIMESTAMP_KEY = some "1730854478535" := by
  decide

/-- C17 (amended): a scheduler trigger (the 30-second tick and the before-exit hook run this
same body). When the preference read is not NO_RESTORE and a game reference is attached, it
invokes `saveGame(true)`, if a save callback is attached, and then, that call having
returned (or no save callback being attached), `autoSave()`: the trace gets the
`saveGame(true)` call followed by the write of the timestamp. When the preference is
NO_RESTORE it does nothing: the world is unchanged, so no save callback is invoked and the
timestamp key is not written. -/
theorem saveTrigger_saves_then_autoSaves (now : Nat) (w : World) :
    (getPreference w ≠ PREFERENCES.NO_RESTORE → w.self.game = true →
        ∀ save, w.self.saveGame = some save →
          (save true w.localStorage.items).completion = .normal () →
          saveTrigger now w = (.normal (), (autoSave now
            ((w.emit (.saveGame true)).withItems (save true w.localStorage.items).items)).2) ∧
          (saveTrigger now w).2.trace = w.trace ++
            [.saveGame true, .setItem AUTOSAVE_TIMESTAMP_KEY (toString now)]) ∧
      (getPreference w ≠ PREFERENCES.NO_RESTORE → w.self.game = true →
        w.self.saveGame = none →
          saveTrigger now w = (.normal (), (autoSave now w).2) ∧
          (saveTrigger now w).2.trace = w.trace ++
            [.setItem AUTOSAVE_TIMESTAMP_KEY (toString now)]) ∧
      (getPreference w = PREFERENCES.NO_RESTORE → saveTrigger now w = (.normal (), w)) := by
  have htrace : ∀ w1 : World, w1.self.game = true →
      (autoSave now w1).2.trace =
        w1.trace ++ [.setItem AUTOSAVE_TIMESTAMP_KEY (toString now)] := by
    intro w1 hg
    unfold autoSave
    cases hset : w1.localStorage.setItem AUTOSAVE_TIMESTAMP_KEY (toString now) <;>
      simp [hg, hset, World.emit]
  refine ⟨?_, ?_, ?_⟩
  · intro hp hg save hs hc
    have heq : saveTrigger now w = (.normal (), (autoSave now
        ((w.emit (.saveGame true)).withItems (save true w.localStorage.items).items)).2) := by
      simp [saveTrigger, hp, hg, hs, hc]
    refine ⟨heq, ?_⟩
    rw [heq]
    simp only []
    rw [htrace _ (by simpa [self_withItems, self_emit] using hg)]
    simp [trace_withItems, trace_emit]
  · intro hp hg hs
    have heq : saveTrigger now w = (.normal (), (autoSave now w).2) := by
      simp [saveTrigger, hp, hg, hs]
    refine ⟨heq, ?_⟩
    rw [heq]
    exact htrace w hg
  · intro hp
    simp [saveTrigger, hp]

/-- C17 (witness): no preference stored, the game and a save callback attached. -/
theorem saveTrigger_saves_then_autoSaves_witness :
    (saveTrigger 1730854478535 (playingWorld [])).2.trace =
      (playingWorld []).trace ++
        [.saveGame true, .setItem AUTOSAVE_TIMESTAMP_KEY (toString 1730854478535)] :=
  ((saveTrigger_saves_then_autoSaves 1730854478535 (playingWorld [])).1 (by decide) rfl
    (saveWriting "blob") rfl rfl).2

/-! ## Settings dialog -/

/-- A call of `setPreference` does not change how the storage fails, and it changes no key
but the preference key. -/
theorem setPreference_storage (v : JsVal) (w : World) :
    (setPreference v w).2.localStorage.denied = w.localStorage.denied ∧
      (setPreference v w).2.localStorage.quotaExceeded = w.localStorage.quotaExceeded ∧
      ∀ k, k ≠ AUTOSAVE_PREFERENCE_KEY →
        (setPreference v w).2.localStorage.items k = w.localStorage.items k := by
  unfold setPreference
  cases hv : isPreferenceValue v with
  | none => exact ⟨rfl, rfl, fun _ _ => rfl⟩
  | some p =>
    refine ⟨?_, ?_, ?_⟩
    · cases hd : w.localStorage.denied <;>
        cases hq : w.localStorage.quotaExceeded AUTOSAVE_PREFERENCE_KEY p <;>
        simp [LocalStorage.setItem, hd, hq, World.emit]
    · cases hd : w.localStorage.denied <;>
        cases hq : w.localStorage.quotaExceeded AUTOSAVE_PREFERENCE_KEY p <;>
        simp [LocalStorage.setItem, hd, hq, World.emit]
    · intro k hk
      cases hd : w.localStorage.denied <;>
        cases hq : w.localStorage.quotaExceeded AUTOSAVE_PREFERENCE_KEY p <;>
        simp [LocalStorage.setItem, hd, hq, World.emit, hk]

/-- C18 (counterexample): on a full storage (every `setItem` throws) with 'ask_restore'
stored, confirming the settings dialog with the choice 'auto_restore' and the toggle off
leaves `getPreference()` at 'ask_restore' and the restart-confirmation toggle reading true:
both writes were attempted and both were lost. -/
theorem settingsSave_on_full_storage :
    getPreference (settingsSave (some PREFERENCES.AUTO_RESTORE) false
        (fullStorageWorld [(AUTOSAVE_PREFERENCE_KEY, PREFERENCES.ASK_RESTORE)])).2 =
        PREFERENCES.ASK_RESTORE ∧
      getPreference (settingsSave (some PREFERENCES.AUTO_RESTORE) false
        (fullStorageWorld [(AUTOSAVE_PREFERENCE_KEY, PREFERENCES.ASK_RESTORE)])).2 ≠
        PREFERENCES.AUTO_RESTORE ∧
      resetPromptPref (settingsSave (some PREFERENCES.AUTO_RESTORE) false
        (fullStorageWorld [(AUTOSAVE_PREFERENCE_KEY, PREFERENCES.ASK_RESTORE)])).2 = true ∧
      (settingsSave (some PREFERENCES.AUTO_RESTORE) false
        (fullStorageWorld [(AUTOSAVE_PREFERENCE_KEY, PREFERENCES.ASK_RESTORE)])).2.trace =
        [.setItem AUTOSAVE_PREFERENCE_KEY PREFERENCES.AUTO_RESTORE,
          .setItem RESET_PROMPT_KEY "false"] := by
  decide

/-- C18 (amended): confirming the settings dialog with restore choice `r` and confirmation
toggle `b` attempts both writes, the second also when the first throws; when the write of
`r` succeeds `getPreference()` afterwards returns `r`, and when the write of the toggle
succeeds the restart-confirmation preference reads back as `b`; that preference reads as
true when its key is absent; cancelling the dialog leaves the world as it was. -/
theorem settingsSave_commits (r : String) (b : Bool) (w : World)
    (hr : r ∈ PREFERENCES.values) :
    (settingsSave (some r) b w).2.trace =
        w.trace ++ [.setItem AUTOSAVE_PREFERENCE_KEY r,
          .setItem RESET_PROMPT_KEY (if b then "true" else "false")] ∧
      ((∃ ls, w.localStorage.setItem AUTOSAVE_PREFERENCE_KEY r = .normal ls) →
        getPreference (settingsSave (some r) b w).2 = r) ∧
      ((∃ ls, w.localStorage.setItem RESET_PROMPT_KEY (if b then "true" else "false")
          = .normal ls) →
        resetPromptPref (settingsSave (some r) b w).2 = b) ∧
      (w.localStorage.getItem RESET_PROMPT_KEY = .normal none → resetPromptPref w = true) ∧
      settingsCancel w = w := by
  have hkey : AUTOSAVE_PREFERENCE_KEY ≠ RESET_PROMPT_KEY := by decide
  obtain ⟨hden, hquota, _⟩ := setPreference_storage (.str r) w
  have htr := setPreference_trace r hr w
  refine ⟨?_, ?_, ?_, ?_, rfl⟩
  · unfold settingsSave
    cases hset : (setPreference (.str r) w).2.localStorage.setItem RESET_PROMPT_KEY
        (if b then "true" else "false") <;>
      simp [hset, World.emit, htr]
  · intro hwrite
    have hget := getPreference_setPreference w r hr hwrite
    have hne := ne_empty_of_mem_values hr
    unfold getPreference LocalStorage.getItem at hget
    unfold settingsSave
    cases hset : (setPreference (.str r) w).2.localStorage.setItem RESET_PROMPT_KEY
        (if b then "true" else "false") with
    | throw =>
      simp only [hset]
      unfold getPreference LocalStorage.getItem
      simpa [World.emit] using hget
    | normal ls =>
      simp only [hset]
      unfold LocalStorage.setItem at hset
      cases hd : (setPreference (.str r) w).2.localStorage.denied with
      | true => simp [hd] at hset
      | false =>
        cases hq : (setPreference (.str r) w).2.localStorage.quotaExceeded RESET_PROMPT_KEY
            (if b then "true" else "false") with
        | true => simp [hd, hq] at hset
        | false =>
          simp only [hd, hq] at hset
          simp at hset
          unfold getPreference LocalStorage.getItem
          rw [← hset]
          rw [hd] at hget
          simpa [World.emit, hd, hkey] using hget
  · intro hwrite
    obtain ⟨hd, hq⟩ := (setItem_normal_iff _ _ _).mp hwrite
    have hd1 : (setPreference (.str r) w).2.localStorage.denied = false := by rw [hden, hd]
    have hq1 : (setPreference (.str r) w).2.localStorage.quotaExceeded RESET_PROMPT_KEY
        (if b then "true" else "false") = false := by rw [hquota, hq]
    unfold settingsSave
    simp only [setItem_normal _ _ _ hd1 hq1]
    cases b <;> simp [resetPromptPref, LocalStorage.getItem, World.emit, hd1]
  · intro h
    simp [resetPromptPref, h]

/-- C18 (witness): on a working storage with 'auto_restore' stored, the choice
'ask_restore' with the toggle off reads back as 'ask_restore' and false. -/
theorem settingsSave_commits_witness :
    getPreference (settingsSave (some PREFERENCES.ASK_RESTORE) false
        (sampleWorld [(AUTOSAVE_PREFERENCE_KEY, PREFERENCES.AUTO_RESTORE)])).2 =
        PREFERENCES.ASK_RESTORE ∧
      resetPromptPref (settingsSave (some PREFERENCES.ASK_RESTORE) false
        (sampleWorld [(AUTOSAVE_PREFERENCE_KEY, PREFERENCES.AUTO_RESTORE)])).2 = false := by
  have h := settingsSave_commits PREFERENCES.ASK_RESTORE false
    (sampleWorld [(AUTOSAVE_PREFERENCE_KEY, PREFERENCES.AUTO_RESTORE)]) (by decide)
  exact ⟨h.2.1 ⟨_, rfl⟩, h.2.2.1 ⟨_, rfl⟩⟩

/-! ## The restore decision: characterisation -/

/-- C19: with a render callback that is missing or does not throw and a prompt that is
answered, `handleRestore()` returns true if and only if the value read by `getPreference()`
is not 'no_restore', `hasAutoSave()` finds a save blob that is present and non-empty, a load
function is attached and that load function returns a truthy value without throwing; in
every other case it returns false. Whenever it returns true the trace got, in this order,
one call of `loadGame`, the call of `renderAll` if attached, the prompt if one was due, and
the write of the answer "disable": the load callback was invoked exactly once and before
`renderAll`, and `renderAll` had returned before the prompt was shown. -/
theorem handleRestore_true_iff (w : World) (disable : Bool)
    (hret : ∀ render, w.self.renderAll = some render →
      ∀ items, (render items).completion = .normal ()) :
    ((handleRestore (.normal disable) w).1 = .normal true ↔
        getPreference w ≠ PREFERENCES.NO_RESTORE ∧ hasAutoSave w = true ∧
          ∃ load v, w.self.loadGame = some load ∧
            (load w.localStorage.items).completion = .normal v ∧ v.truthy = true) ∧
      ((handleRestore (.normal disable) w).1 ≠ .normal true →
        (handleRestore (.normal disable) w).1 = .normal false) ∧
      ((handleRestore (.normal disable) w).1 = .normal true →
        (handleRestore (.normal disable) w).2.trace =
          w.trace ++ [.loadGame] ++ (if w.self.renderAll.isSome then [.renderAll] else []) ++
            (if getPreference w = PREFERENCES.ASK_RESTORE ∧ w.self.hasShownPrompt = false then
              [.showRestorePrompt] ++
                (if disable then [.setItem AUTOSAVE_PREFERENCE_KEY PREFERENCES.NO_RESTORE]
                 else [])
             else []) ∧
        (handleRestore (.normal disable) w).2.trace.count .loadGame =
          w.trace.count .loadGame + 1) := by
  have hfalse : ∀ h : getPreference w = PREFERENCES.NO_RESTORE ∨ hasAutoSave w = false ∨
      (restoreAutoSave w).1.truthy = false,
      (handleRestore (.normal disable) w).1 ≠ .normal true := by
    intro h htrue
    rw [handleRestore_of_not_restored _ w h] at htrue
    cases htrue
  by_cases hp : getPreference w = PREFERENCES.NO_RESTORE
  · have hres := handleRestore_of_not_restored (.normal disable) w (Or.inl hp)
    refine ⟨⟨fun h => absurd h (hfalse (Or.inl hp)), fun h => absurd hp h.1⟩, fun _ => hres,
      fun h => absurd h (hfalse (Or.inl hp))⟩
  · cases hs : hasAutoSave w with
    | false =>
      have hres := handleRestore_of_not_restored (.normal disable) w (Or.inr (Or.inl hs))
      refine ⟨⟨fun h => absurd h (hfalse (Or.inr (Or.inl hs))), fun h => ?_⟩, fun _ => hres,
        fun h => absurd h (hfalse (Or.inr (Or.inl hs)))⟩
      exact absurd h.2.1 (by simp)
    | true =>
      cases ht : (restoreAutoSave w).1.truthy with
      | false =>
        have hres := handleRestore_of_not_restored (.normal disable) w (Or.inr (Or.inr ht))
        refine ⟨⟨fun h => absurd h (hfalse (Or.inr (Or.inr ht))), fun h => ?_⟩, fun _ => hres,
          fun h => absurd h (hfalse (Or.inr (Or.inr ht)))⟩
        have := (restoreAutoSave_truthy_iff w hs).mpr h.2.2
        rw [ht] at this
        cases this
      | true =>
        obtain ⟨hres, htrace⟩ := handleRestore_of_restored disable w hp hs ht hret
        refine ⟨⟨fun _ => ⟨hp, rfl, (restoreAutoSave_truthy_iff w hs).mp ht⟩, fun _ => hres⟩,
          fun h => absurd hres h, fun _ => ⟨htrace, ?_⟩⟩
        rw [htrace]
        cases hr : w.self.renderAll.isSome <;>
          by_cases hq : getPreference w = PREFERENCES.ASK_RESTORE ∧
            w.self.hasShownPrompt = false <;>
          cases disable <;> simp [hq, List.count_cons]

/-- C19 (witness): a fresh page with 'ask_restore' stored, a save blob and returning
callbacks, the user choosing "disable": true, and the four events in their order. -/
theorem handleRestore_true_iff_witness :
    (handleRestore (.normal true) (wiredWorld [(AUTOSAVE_PREFERENCE_KEY,
        PREFERENCES.ASK_RESTORE), (SAVE_KEY, "blob")] (.bool true))).1 = .normal true ∧
      (handleRestore (.normal true) (wiredWorld [(AUTOSAVE_PREFERENCE_KEY,
        PREFERENCES.ASK_RESTORE), (SAVE_KEY, "blob")] (.bool true))).2.trace =
        [.loadGame, .renderAll, .showRestorePrompt,
          .setItem AUTOSAVE_PREFERENCE_KEY PREFERENCES.NO_RESTORE] := by
  have h := handleRestore_true_iff
    (wiredWorld [(AUTOSAVE_PREFERENCE_KEY, PREFERENCES.ASK_RESTORE), (SAVE_KEY, "blob")]
      (.bool true)) true
    (fun render hr items => by
      cases hr
      rfl)
  have htrue := h.1.mpr ⟨by decide, by decide, loadReturning (.bool true), .bool true, rfl, rfl,
    rfl⟩
  exact ⟨htrue, by decide⟩

/-! ## The save blob is never written by the manager -/

/-- A call of `autoSave` changes no key but the timestamp key. -/
theorem autoSave_items (now : Nat) (w : World) (k : String) (hk : k ≠ AUTOSAVE_TIMESTAMP_KEY) :
    (autoSave now w).2.localStorage.items k = w.localStorage.items k := by
  unfold autoSave
  cases hg : w.self.game with
  | false => simp [hg]
  | true =>
    cases hd : w.localStorage.denied <;>
      cases hq : w.localStorage.quotaExceeded AUTOSAVE_TIMESTAMP_KEY (toString now) <;>
      simp [hg, LocalStorage.setItem, hd, hq, World.emit, hk]

/-- A call of `restoreAutoSave` leaves the save blob to the load callback. -/
theorem restoreAutoSave_blob (w : World)
    (hload : ∀ load, w.self.loadGame = some load →
      ∀ items, (load items).items SAVE_KEY = items SAVE_KEY) :
    (restoreAutoSave w).2.localStorage.items SAVE_KEY = w.localStorage.items SAVE_KEY := by
  unfold restoreAutoSave
  cases hget : w.localStorage.getItem SAVE_KEY with
  | throw => rfl
  | normal data =>
    cases hdata : truthyItem data with
    | false => simp [hdata]
    | true =>
      cases hl : w.self.loadGame with
      | none => simp [hdata]
      | some load =>
        cases hc : (load w.localStorage.items).completion <;>
          simp [hc, hdata, World.withItems, World.emit, hload load hl]

/-- The guarded call of `renderAll` leaves the save blob to the render callback. -/
theorem renderIfAttached_blob (w : World)
    (hrender : ∀ render, w.self.renderAll = some render →
      ∀ items, (render items).items SAVE_KEY = items SAVE_KEY) :
    (renderIfAttached w).2.localStorage.items SAVE_KEY = w.localStorage.items SAVE_KEY := by
  unfold renderIfAttached
  cases hr : w.self.renderAll with
  | none => rfl
  | some render => simp [World.withItems, World.emit, hrender render hr]

/-- A scheduler trigger leaves the save blob to the save callback. -/
theorem saveTrigger_blob (now : Nat) (w : World)
    (hsave : ∀ save, w.self.saveGame = some save →
      ∀ silent items, (save silent items).items SAVE_KEY = items SAVE_KEY) :
    (saveTrigger now w).2.localStorage.items SAVE_KEY = w.localStorage.items SAVE_KEY := by
  have hkey : SAVE_KEY ≠ AUTOSAVE_TIMESTAMP_KEY := by decide
  unfold saveTrigger
  cases hcond : (getPreference w != PREFERENCES.NO_RESTORE && w.self.game) with
  | false => simp [hcond]
  | true =>
    cases hsg : w.self.saveGame with
    | none => simp [hcond, autoSave_items now w SAVE_KEY hkey]
    | some save =>
      cases hc : (save true w.localStorage.items).completion with
      | throw => simp [hcond, hc, World.withItems, World.emit, hsave save hsg]
      | normal u =>
        simp only [hcond, hc, if_true]
        rw [autoSave_items _ _ SAVE_KEY hkey]
        simp [World.withItems, World.emit, hsave save hsg]

/-- The save handler of the settings dialog does not touch the save blob. -/
theorem settingsSave_blob (selected : Option String) (checked : Bool) (w : World) :
    (settingsSave selected checked w).2.localStorage.items SAVE_KEY =
      w.localStorage.items SAVE_KEY := by
  have hkey1 : SAVE_KEY ≠ AUTOSAVE_PREFERENCE_KEY := by decide
  have hkey2 : SAVE_KEY ≠ RESET_PROMPT_KEY := by decide
  unfold settingsSave
  cases selected with
  | none => rfl
  | some selectedPref =>
    have hpre := (setPreference_storage (.str selectedPref) w).2.2 SAVE_KEY hkey1
    cases hd : (setPreference (.str selectedPref) w).2.localStorage.denied <;>
      cases hq : (setPreference (.str selectedPref) w).2.localStorage.quotaExceeded
        RESET_PROMPT_KEY (if checked then "true" else "false") <;>
      simp [LocalStorage.setItem, hd, hq, World.emit, hkey2, hpre]

/-- The storage when the synchronous part of `handleRestore` is over is the one found, the
one `restoreAutoSave` left or the one the render step left. -/
theorem handleRestoreStart_storage (w : World) :
    (handleRestoreStart w).world.localStorage = w.localStorage ∨
      (handleRestoreStart w).world.localStorage = (restoreAutoSave w).2.localStorage ∨
      (handleRestoreStart w).world.localStorage =
        (renderIfAttached (restoreAutoSave w).2).2.localStorage := by
  by_cases hp : getPreference w = PREFERENCES.NO_RESTORE
  · rw [handleRestoreStart_of_no_restore w hp]
    exact Or.inl rfl
  · cases hs : hasAutoSave w with
    | false =>
      have hstart : handleRestoreStart w = .settled (.normal false) w := by
        unfold handleRestoreStart
        simp [hp, hs]
      rw [hstart]
      exact Or.inl rfl
    | true =>
      cases hres : restoreAutoSave w with
      | mk restored w1 =>
        cases ht : restored.truthy with
        | false =>
          have hstart : handleRestoreStart w = .settled (.normal false) w1 := by
            unfold handleRestoreStart
            simp [hp, hs, hres, ht]
          rw [hstart]
          exact Or.inr (Or.inl rfl)
        | true =>
          cases hren : renderIfAttached w1 with
          | mk c w2 =>
            cases c with
            | throw =>
              have hstart : handleRestoreStart w = .settled .throw w2 := by
                unfold handleRestoreStart
                simp [hp, hs, hres, ht, hren]
              rw [hstart]
              exact Or.inr (Or.inr rfl)
            | normal u =>
              by_cases hq : getPreference w = PREFERENCES.ASK_RESTORE ∧
                  w2.self.hasShownPrompt = false
              · have hstart : handleRestoreStart w = .awaiting (showRestorePrompt
                    { w2 with self := { w2.self with hasShownPrompt := true } }) := by
                  unfold handleRestoreStart
                  simp only [hp, if_false, hs, hres, ht, hren]
                  simp [hq.2, hq.1]
                rw [hstart]
                exact Or.inr (Or.inr rfl)
              · have hstart : handleRestoreStart w = .settled (.normal true) w2 := by
                  unfold handleRestoreStart
                  simp only [hp, if_false, hs, hres, ht, hren]
                  simp [hq]
                rw [hstart]
                exact Or.inr (Or.inr rfl)

/-- The synchronous part of `handleRestore` leaves the save blob to the callbacks. -/
theorem handleRestoreStart_blob (w : World)
    (hload : ∀ load, w.self.loadGame = some load →
      ∀ items, (load items).items SAVE_KEY = items SAVE_KEY)
    (hrender : ∀ render, w.self.renderAll = some render →
      ∀ items, (render items).items SAVE_KEY = items SAVE_KEY) :
    (handleRestoreStart w).world.localStorage.items SAVE_KEY =
      w.localStorage.items SAVE_KEY := by
  have h1 := restoreAutoSave_blob w hload
  have h2 := renderIfAttached_blob (restoreAutoSave w).2
    (fun render hr => hrender render (by rw [restoreAutoSave_self] at hr; exact hr))
  rcases handleRestoreStart_storage w with h | h | h
  · rw [h]
  · rw [h, h1]
  · rw [h, h2, h1]

/-- The part of `handleRestore` after the `await` does not touch the save blob. -/
theorem handleRestoreResume_blob (prompt : Completion Bool) (w : World) :
    (handleRestoreResume prompt w).2.localStorage.items SAVE_KEY =
      w.localStorage.items SAVE_KEY := by
  have hkey : SAVE_KEY ≠ AUTOSAVE_PREFERENCE_KEY := by decide
  unfold handleRestoreResume
  cases prompt with
  | throw => rfl
  | normal disable =>
    cases disable with
    | false => simp
    | true => simp [(setPreference_storage _ w).2.2 SAVE_KEY hkey]

/-- A whole call of `handleRestore` leaves the save blob to the callbacks. -/
theorem handleRestore_blob (prompt : Completion Bool) (w : World)
    (hload : ∀ load, w.self.loadGame = some load →
      ∀ items, (load items).items SAVE_KEY = items SAVE_KEY)
    (hrender : ∀ render, w.self.renderAll = some render →
      ∀ items, (render items).items SAVE_KEY = items SAVE_KEY) :
    (handleRestore prompt w).2.localStorage.items SAVE_KEY = w.localStorage.items SAVE_KEY := by
  have hstart := handleRestoreStart_blob w hload hrender
  unfold handleRestore
  cases h : handleRestoreStart w with
  | settled result w1 =>
    rw [h] at hstart
    exact hstart
  | awaiting w1 =>
    rw [h] at hstart
    simp only []
    rw [handleRestoreResume_blob]
    exact hstart

/-- C20: the manager itself never writes the save blob. As long as the injected callbacks
leave the value under the save blob key alone, every operation of the manager other than
`clearAutoSave()` leaves it unchanged: the setters, `setPreference`, `autoSave`,
`restoreAutoSave`, the scheduler triggers, the settings commit, `handleRestore` up to its
prompt and after it, and a whole call of `handleRestore` (the reading methods
`getPreference`, `hasAutoSave` and `getAutoSaveTimestamp` cannot change the storage at
all). Moreover `autoSave()` changes no key but the timestamp key, and `setPreference()` no
key but the preference key. -/
theorem manager_never_writes_blob :
    (∀ (p : Page) (op : Op), op ≠ .clearAutoSave → (∀ f, op ≠ .external f) →
        (∀ load, p.world.self.loadGame = some load →
          ∀ items, (load items).items SAVE_KEY = items SAVE_KEY) →
        (∀ render, p.world.self.renderAll = some render →
          ∀ items, (render items).items SAVE_KEY = items SAVE_KEY) →
        (∀ save, p.world.self.saveGame = some save →
          ∀ silent items, (save silent items).items SAVE_KEY = items SAVE_KEY) →
        (p.step op).world.localStorage.items SAVE_KEY = p.world.localStorage.items SAVE_KEY) ∧
      (∀ (prompt : Completion Bool) (w : World),
        (∀ load, w.self.loadGame = some load →
          ∀ items, (load items).items SAVE_KEY = items SAVE_KEY) →
        (∀ render, w.self.renderAll = some render →
          ∀ items, (render items).items SAVE_KEY = items SAVE_KEY) →
        (handleRestore prompt w).2.localStorage.items SAVE_KEY =
          w.localStorage.items SAVE_KEY) ∧
      (∀ (now : Nat) (w : World) (k : String), k ≠ AUTOSAVE_TIMESTAMP_KEY →
        (autoSave now w).2.localStorage.items k = w.localStorage.items k) ∧
      (∀ (v : JsVal) (w : World) (k : String), k ≠ AUTOSAVE_PREFERENCE_KEY →
        (setPreference v w).2.localStorage.items k = w.localStorage.items k) := by
  have hkey1 : SAVE_KEY ≠ AUTOSAVE_PREFERENCE_KEY := by decide
  have hkey2 : SAVE_KEY ≠ AUTOSAVE_TIMESTAMP_KEY := by decide
  refine ⟨?_, ?_, ?_, ?_⟩
  · intro p op hclear hext hload hrender hsave
    cases op with
    | setSaveCallback f => rfl
    | setLoadCallback f => rfl
    | setRenderCallback f => rfl
    | setGameReference g => rfl
    | setPreference v =>
      exact (setPreference_storage v p.world).2.2 SAVE_KEY hkey1
    | autoSave now => exact autoSave_items now p.world SAVE_KEY hkey2
    | restoreAutoSave => exact restoreAutoSave_blob p.world hload
    | clearAutoSave => exact absurd rfl hclear
    | saveTrigger now => exact saveTrigger_blob now p.world hsave
    | settingsSave sel chk => exact settingsSave_blob sel chk p.world
    | handleRestore =>
      have hstart := handleRestoreStart_blob p.world hload hrender
      cases h : handleRestoreStart p.world with
      | settled result w1 =>
        rw [h] at hstart
        simpa [Page.step, h] using hstart
      | awaiting w1 =>
        rw [h] at hstart
        simpa [Page.step, h] using hstart
    | settlePrompt prompt =>
      by_cases h0 : p.suspended = 0
      · simp [Page.step, h0]
      · simp [Page.step, h0, handleRestoreResume_blob]
    | external f => exact absurd rfl (hext f)
  · intro prompt w hload hrender
    exact handleRestore_blob prompt w hload hrender
  · intro now w k hk
    exact autoSave_items now w k hk
  · intro v w k hk
    exact (setPreference_storage v w).2.2 k hk

/-- C20 (witness): a scheduler trigger on a page with the game attached and no save
callback: the timestamp is written, the blob stays "blob". -/
theorem manager_never_writes_blob_witness :
    (blobPage.step (.saveTrigger 1730854478535)).world.localStorage.items SAVE_KEY =
      blobPage.world.localStorage.items SAVE_KEY :=
  manager_never_writes_blob.1 _ _ (fun h => by cases h) (fun f h => by cases h)
    (fun load hl => by cases hl) (fun render hr => by cases hr) (fun save hs => by cases hs)

end AutoSave
